import Mathlib

/-!
Verification development for the TVM-linker core: the disassembler dispatch
table (src/tvm_linker/src/disasm/handlers.rs) and the two-pass assembler
parser (src/tvm_linker/src/parser.rs), shallowly embedded in Lean.
Machine integers are modelled as Nat/Int with explicit reductions mod 2^32
where the source relies on fixed-width arithmetic; Rust byte strings are
modelled as List Nat (one Nat per byte) and Rust &str values as String.
-/

set_option autoImplicit false
set_option maxRecDepth 1000000
set_option maxHeartbeats 2000000

namespace TvmLinker

/-! ### SHA-256, the primitive behind calc_func_id

The source calls the external sha2 crate, which implements FIPS 180-4
SHA-256; the embedding below is that standard algorithm over byte lists. -/

def w32 (x : Nat) : Nat := x % 4294967296

def rotr32 (n x : Nat) : Nat := w32 ((x >>> n) ||| (x <<< (32 - n)))

def shaCh (x y z : Nat) : Nat := (x &&& y) ^^^ ((x ^^^ 4294967295) &&& z)

def shaMaj (x y z : Nat) : Nat := (x &&& y) ^^^ (x &&& z) ^^^ (y &&& z)

def bigSigma0 (x : Nat) : Nat := rotr32 2 x ^^^ rotr32 13 x ^^^ rotr32 22 x

def bigSigma1 (x : Nat) : Nat := rotr32 6 x ^^^ rotr32 11 x ^^^ rotr32 25 x

def smallSigma0 (x : Nat) : Nat := rotr32 7 x ^^^ rotr32 18 x ^^^ (x >>> 3)

def smallSigma1 (x : Nat) : Nat := rotr32 17 x ^^^ rotr32 19 x ^^^ (x >>> 10)

def sha256K : List Nat :=
  [0x428a2f98, 0x71374491, 0xb5c0fbcf, 0xe9b5dba5, 0x3956c25b, 0x59f111f1, 0x923f82a4, 0xab1c5ed5] ++
  [0xd807aa98, 0x12835b01, 0x243185be, 0x550c7dc3, 0x72be5d74, 0x80deb1fe, 0x9bdc06a7, 0xc19bf174] ++
  [0xe49b69c1, 0xefbe4786, 0x0fc19dc6, 0x240ca1cc, 0x2de92c6f, 0x4a7484aa, 0x5cb0a9dc, 0x76f988da] ++
  [0x983e5152, 0xa831c66d, 0xb00327c8, 0xbf597fc7, 0xc6e00bf3, 0xd5a79147, 0x06ca6351, 0x14292967] ++
  [0x27b70a85, 0x2e1b2138, 0x4d2c6dfc, 0x53380d13, 0x650a7354, 0x766a0abb, 0x81c2c92e, 0x92722c85] ++
  [0xa2bfe8a1, 0xa81a664b, 0xc24b8b70, 0xc76c51a3, 0xd192e819, 0xd6990624, 0xf40e3585, 0x106aa070] ++
  [0x19a4c116, 0x1e376c08, 0x2748774c, 0x34b0bcb5, 0x391c0cb3, 0x4ed8aa4a, 0x5b9cca4f, 0x682e6ff3] ++
  [0x748f82ee, 0x78a5636f, 0x84c87814, 0x8cc70208, 0x90befffa, 0xa4506ceb, 0xbef9a3f7, 0xc67178f2]

def sha256H0 : List Nat :=
  [0x6a09e667, 0xbb67ae85, 0x3c6ef372, 0xa54ff53a, 0x510e527f, 0x9b05688c, 0x1f83d9ab, 0x5be0cd19]

/-- Big-endian 8-byte encoding of a natural number (the length field of the padding). -/
def be64 (n : Nat) : List Nat :=
  [w32 0 + (n >>> 56) % 256, (n >>> 48) % 256, (n >>> 40) % 256, (n >>> 32) % 256,
   (n >>> 24) % 256, (n >>> 16) % 256, (n >>> 8) % 256, n % 256]

/-- FIPS 180-4 padding: 0x80, zeros to 56 mod 64, then the bit length big-endian. -/
def shaPad (msg : List Nat) : List Nat :=
  let len := msg.length
  let k := (119 - len % 64) % 64
  msg ++ 0x80 :: List.replicate k 0 ++ be64 (8 * len)

/-- Group a byte list into sublists of `n` (the input length is a multiple of `n`). -/
def chunks (n : Nat) (l : List Nat) : List (List Nat) :=
  let step := fun (p : List (List Nat) × List Nat) (b : Nat) =>
    let acc := p.2 ++ [b]
    if acc.length = n then (p.1 ++ [acc], ([] : List Nat)) else (p.1, acc)
  (l.foldl step ([], [])).1

def beWord (bs : List Nat) : Nat := bs.foldl (fun a b => a * 256 + b) 0

/-- A 64-byte block as 16 big-endian 32-bit words. -/
def toWords (blk : List Nat) : List Nat := (chunks 4 blk).map beWord

/-- Message schedule: extend 16 words to 64. -/
def schedule (w16 : List Nat) : List Nat :=
  (List.range 48).foldl
    (fun w _ =>
      let len := w.length
      let nw := w32 (smallSigma1 (w.getD (len - 2) 0) + w.getD (len - 7) 0 +
                    smallSigma0 (w.getD (len - 15) 0) + w.getD (len - 16) 0)
      w ++ [nw])
    w16

/-- One compression round: state is the 8-word working vector [a,b,c,d,e,f,g,h]. -/
def shaRound (st : List Nat) (kw : Nat × Nat) : List Nat :=
  let a := st.getD 0 0
  let b := st.getD 1 0
  let c := st.getD 2 0
  let d := st.getD 3 0
  let e := st.getD 4 0
  let f := st.getD 5 0
  let g := st.getD 6 0
  let h := st.getD 7 0
  let t1 := w32 (h + bigSigma1 e + shaCh e f g + kw.1 + kw.2)
  let t2 := w32 (bigSigma0 a + shaMaj a b c)
  [w32 (t1 + t2), a, b, c, w32 (d + t1), e, f, g]

/-- Compress one 64-byte block into the hash state; always returns 8 words. -/
def compressBlock (h : List Nat) (blk : List Nat) : List Nat :=
  let ws := schedule (toWords blk)
  let st := (List.zip sha256K ws).foldl shaRound h
  [w32 (h.getD 0 0 + st.getD 0 0), w32 (h.getD 1 0 + st.getD 1 0),
   w32 (h.getD 2 0 + st.getD 2 0), w32 (h.getD 3 0 + st.getD 3 0),
   w32 (h.getD 4 0 + st.getD 4 0), w32 (h.getD 5 0 + st.getD 5 0),
   w32 (h.getD 6 0 + st.getD 6 0), w32 (h.getD 7 0 + st.getD 7 0)]

/-- The 4 big-endian bytes of a 32-bit word. -/
def wordBytes (x : Nat) : List Nat := [(x >>> 24) % 256, (x >>> 16) % 256, (x >>> 8) % 256, x % 256]

/-- SHA-256 of a byte list, as the 32-byte digest. -/
def sha256 (msg : List Nat) : List Nat :=
  (((chunks 64 (shaPad msg)).foldl compressBlock sha256H0).map wordBytes).flatten

/-! ### calc_func_id (src/tvm_linker/src/parser.rs, calc_func_id)

Rust: feed the UTF-8 bytes of the interface string into Sha256, copy the
first four result bytes and read them as a big-endian u32. -/

/-- u32::from_be_bytes on a 4-byte array. -/
def fromBeBytes4 (l : List Nat) : Nat :=
  match l with
  | [a, b, c, d] => ((a * 256 + b) * 256 + c) * 256 + d
  | _ => 0

def calc_func_id (bytes : List Nat) : Nat := fromBeBytes4 (List.take 4 (sha256 bytes))

/-- UTF-8 encoding of one character (as in Rust str::as_bytes). -/
def utf8Char (c : Char) : List Nat :=
  let n := c.toNat
  if n < 0x80 then [n]
  else if n < 0x800 then [0xC0 ||| (n >>> 6), 0x80 ||| (n &&& 0x3F)]
  else if n < 0x10000 then
    [0xE0 ||| (n >>> 12), 0x80 ||| ((n >>> 6) &&& 0x3F), 0x80 ||| (n &&& 0x3F)]
  else
    [0xF0 ||| (n >>> 18), 0x80 ||| ((n >>> 12) &&& 0x3F),
     0x80 ||| ((n >>> 6) &&& 0x3F), 0x80 ||| (n &&& 0x3F)]

/-- The UTF-8 bytes of a string (Rust str::as_bytes). -/
def utf8Str (s : String) : List Nat := (s.data.map utf8Char).flatten

/-- Big-endian interpretation of a byte list, as the spec phrases it. -/
def beU32 (l : List Nat) : Nat := l.foldl (fun a b => a * 256 + b) 0

/-! Length facts needed to relate `fromBeBytes4` to the spec's big-endian fold. -/

theorem compressBlock_length (h blk : List Nat) : (compressBlock h blk).length = 8 := rfl

theorem foldl_compress_length (blocks : List (List Nat)) (h : List Nat) (hh : h.length = 8) :
    (blocks.foldl compressBlock h).length = 8 := by
  induction blocks generalizing h with
  | nil => simpa using hh
  | cons b bs ih => exact ih _ (compressBlock_length _ _)

theorem flatten_map_wordBytes_length (l : List Nat) : ((l.map wordBytes).flatten).length = 4 * l.length := by
  induction l with
  | nil => simp
  | cons a t ih => simp [wordBytes, ih]; omega

theorem sha256_length (msg : List Nat) : (sha256 msg).length = 32 := by
  unfold sha256
  rw [flatten_map_wordBytes_length, foldl_compress_length _ sha256H0 rfl]

theorem calc_func_id_spec (bs : List Nat) : calc_func_id bs = beU32 (List.take 4 (sha256 bs)) := by
  have hlen : (List.take 4 (sha256 bs)).length = 4 := by
    rw [List.length_take, sha256_length]; decide
  unfold calc_func_id
  rcases hl : List.take 4 (sha256 bs) with _ | ⟨a, _ | ⟨b, _ | ⟨c, _ | ⟨d, rest⟩⟩⟩⟩ <;>
    rw [hl] at hlen <;> simp_all [fromBeBytes4, beU32, List.foldl]

/-- C1 counterexample: the function ID of the name "constructor" is 0xE3C1703A,
the big-endian first four bytes of its standard SHA-256 digest (e3c1703a...),
not 0x68B55F3F as the claim states. -/
theorem C1_function_id_counterexample :
    calc_func_id (utf8Str ("constructor")) = 0xE3C1703A ∧
    calc_func_id (utf8Str ("constructor")) ≠ 0x68B55F3F := by
  constructor
  · decide
  · decide

/-- C1 amended: for every byte string, calc_func_id is the big-endian u32 made of
the first four bytes of the SHA-256 digest of those bytes; the ID of the UTF-8
bytes of "constructor" is 0xE3C1703A (not 0x68B55F3F); and the computation is a
pure function, hence deterministic across runs. -/
theorem C1_function_id :
    (∀ bs : List Nat, calc_func_id bs = beU32 (List.take 4 (sha256 bs))) ∧
    calc_func_id (utf8Str ("constructor")) = 0xE3C1703A ∧
    (∀ s : String, calc_func_id (utf8Str s) = calc_func_id (utf8Str s)) := by
  refine ⟨calc_func_id_spec, by decide, fun s => rfl⟩

/-! ### Disassembler dispatch table (src/tvm_linker/src/disasm/handlers.rs)

Loader functions live in disasm/loader.rs (outside src/); the dispatch table
only stores and returns them, so a loader is embedded as a symbolic value:
`Loader.p n` for a plain fn load_n, `Loader.v n var` for a generic
load_n::<Signaling> / load_n::<Quiet> instantiation, and `Loader.unknown`
for the sentinel load_unknown. -/

inductive Variant where
  | signaling
  | quiet
deriving DecidableEq

inductive Loader where
  | unknown
  | p (name : String)
  | v (name : String) (var : Variant)
deriving DecidableEq

/-- One slot of a dispatch node: a terminal loader, or an index into the
node's flat subset list (enum Handler in the source). -/
inductive Handler where
  | direct (l : Loader)
  | subset (i : Nat)
deriving DecidableEq

/-- struct Handlers: 256 direct slots plus the owned child nodes. -/
inductive HTable where
  | mk (directs : List Handler) (subsets : List HTable)

def HTable.directs : HTable → List Handler
  | .mk d _ => d

def HTable.subsets : HTable → List HTable
  | .mk _ s => s

/-! Each node of the source is a chain of set / set_range / add_subset calls
starting from Handlers::new() (all 256 slots load_unknown). The chain is
transcribed literally: `so code l` stands for .set(code, l), `sr lo hi l` for
.set_range(lo..hi, l), and the add_subset(code, child) calls of a node are its
`subs` list, in call order (add_subset appends the child to the flat subset
list, so the position in `subs` is the stored subset index). The source
panics if two calls touch the same slot; the transcribed calls are pairwise
disjoint, so first-match lookup over the call list populates the 256 slots
exactly as the chained construction does. -/

def so (code : Nat) (l : Loader) : Nat × Nat × Loader := (code, code + 1, l)

def sr (lo hi : Nat) (l : Loader) : Nat × Nat × Loader := (lo, hi, l)

def findRange (ops : List (Nat × Nat × Loader)) (b : Nat) : Option Loader :=
  (ops.find? (fun o => decide (o.1 ≤ b) && decide (b < o.2.1))).map (fun o => o.2.2)

/-- Build one dispatch node from its transcribed set / set_range calls and its
add_subset children. -/
def mkNode (ops : List (Nat × Nat × Loader)) (subs : List (Nat × HTable)) : HTable :=
  HTable.mk
    ((List.range 256).map (fun b =>
      match subs.findIdx? (fun p => p.1 == b) with
      | some i => Handler.subset i
      | none =>
        match findRange ops b with
        | some l => Handler.direct l
        | none => Handler.direct Loader.unknown))
    (subs.map Prod.snd)

/-- Handlers::new(): a node with no registrations. -/
def newH : HTable := mkNode [] []

def LP (s : String) : Loader := Loader.p s

def LS (s : String) : Loader := Loader.v s Variant.signaling

def LQ (s : String) : Loader := Loader.v s Variant.quiet

/-- Dispatch failure: slice underrun on get_next_byte, a dangling subset
index (unreachable for the constructed table), or — for the composed decode
below — the unknown-opcode failure raised by the sentinel loader. -/
inductive DErr where
  | underrun
  | badSubset
  | unknownOpcode
deriving DecidableEq

/-- Handlers::get_handler: read one byte, return a direct loader or recurse
into the indexed subset with the rest of the slice. The slice is modelled as
the byte list still to be read; the returned list is the untouched remainder
(the dispatcher reads whole bytes only, never partial bits). -/
def getHandler : List Nat → HTable → Except DErr (Loader × List Nat)
  | [], _ => Except.error DErr.underrun
  | b :: rest, t =>
    match (HTable.directs t).getD b (Handler.direct Loader.unknown) with
    | Handler.direct h => Except.ok (h, rest)
    | Handler.subset i =>
      match (HTable.subsets t).get? i with
      | some sub => getHandler rest sub
      | none => Except.error DErr.badSubset

/-- add_code_page_0_part_stack, subset behind 0x54. -/
def sub54 : HTable :=
  mkNode [
   sr 0x00 0x10 (LP ("xchg3")),
   sr 0x10 0x20 (LP ("xc2pu")),
   sr 0x20 0x30 (LP ("xcpuxc")),
   sr 0x30 0x40 (LP ("xcpu2")),
   sr 0x40 0x50 (LP ("puxc2")),
   sr 0x50 0x60 (LP ("puxcpu")),
   sr 0x60 0x70 (LP ("pu2xc")),
   sr 0x70 0x80 (LP ("push3"))] []
/-- subset behind 0x5F. -/
def sub5F : HTable :=
  mkNode [
   sr 0x00 0x10 (LP ("blkdrop")),
   sr 0x10 0xFF (LP ("blkpush")),
   so 0xFF (LP ("blkpush"))] []
/-- subset behind 0x6C. -/
def sub6C : HTable :=
  mkNode [
   sr 0x10 0xFF (LP ("blkdrop2")),
   so 0xFF (LP ("blkdrop2"))] []
/-- add_code_page_0_tuple, subset behind 0x6F. -/
def sub6F : HTable :=
  mkNode [
   sr 0x00 0x10 (LP ("tuple_create")),
   sr 0x10 0x20 (LP ("tuple_index")),
   sr 0x20 0x30 (LP ("tuple_un")),
   sr 0x30 0x40 (LP ("tuple_unpackfirst")),
   sr 0x40 0x50 (LP ("tuple_explode")),
   sr 0x50 0x60 (LP ("tuple_setindex")),
   sr 0x60 0x70 (LP ("tuple_index_quiet")),
   sr 0x70 0x80 (LP ("tuple_setindex_quiet")),
   so 0x80 (LP ("tuple_createvar")),
   so 0x81 (LP ("tuple_indexvar")),
   so 0x82 (LP ("tuple_untuplevar")),
   so 0x83 (LP ("tuple_unpackfirstvar")),
   so 0x84 (LP ("tuple_explodevar")),
   so 0x85 (LP ("tuple_setindexvar")),
   so 0x86 (LP ("tuple_indexvar_quiet")),
   so 0x87 (LP ("tuple_setindexvar_quiet")),
   so 0x88 (LP ("tuple_len")),
   so 0x89 (LP ("tuple_len_quiet")),
   so 0x8A (LP ("istuple")),
   so 0x8B (LP ("tuple_last")),
   so 0x8C (LP ("tuple_push")),
   so 0x8D (LP ("tuple_pop")),
   so 0xA0 (LP ("nullswapif")),
   so 0xA1 (LP ("nullswapifnot")),
   so 0xA2 (LP ("nullrotrif")),
   so 0xA3 (LP ("nullrotrifnot")),
   so 0xA4 (LP ("nullswapif2")),
   so 0xA5 (LP ("nullswapifnot2")),
   so 0xA6 (LP ("nullrotrif2")),
   so 0xA7 (LP ("nullrotrifnot2")),
   sr 0xB0 0xC0 (LP ("tuple_index2")),
   sr 0xC0 0xFF (LP ("tuple_index3")),
   so 0xFF (LP ("tuple_index3"))] []
/-- add_code_page_0_part_constant, subset behind 0x83. -/
def sub83 : HTable :=
  mkNode [
   sr 0x00 0xFF (LP ("pushpow2")),
   so 0xFF (LP ("pushnan"))] []
/-- add_code_page_0_arithmetic, signaling subset behind 0xB6. -/
def subB6sig : HTable :=
  mkNode [
   so 0x00 (LS ("fitsx")),
   so 0x01 (LS ("ufitsx")),
   so 0x02 (LS ("bitsize")),
   so 0x03 (LS ("ubitsize")),
   so 0x08 (LS ("min")),
   so 0x09 (LS ("max")),
   so 0x0A (LS ("minmax")),
   so 0x0B (LS ("abs"))] []
/-- quiet subset behind 0xB7 0xB6. -/
def subB6quiet : HTable :=
  mkNode [
   so 0x00 (LQ ("fitsx")),
   so 0x01 (LQ ("ufitsx")),
   so 0x02 (LQ ("bitsize")),
   so 0x03 (LQ ("ubitsize")),
   so 0x08 (LQ ("min")),
   so 0x09 (LQ ("max")),
   so 0x0A (LQ ("minmax")),
   so 0x0B (LQ ("abs"))] []
/-- quiet mirror subset behind 0xB7. -/
def subB7 : HTable :=
  mkNode [
   so 0xA0 (LQ ("add")),
   so 0xA1 (LQ ("sub")),
   so 0xA2 (LQ ("subr")),
   so 0xA3 (LQ ("negate")),
   so 0xA4 (LQ ("inc")),
   so 0xA5 (LQ ("dec")),
   so 0xA6 (LQ ("addconst")),
   so 0xA7 (LQ ("mulconst")),
   so 0xA8 (LQ ("mul")),
   so 0xA9 (LQ ("divmod")),
   so 0xAA (LQ ("lshift")),
   so 0xAB (LQ ("rshift")),
   so 0xAC (LQ ("lshift")),
   so 0xAD (LQ ("rshift")),
   so 0xAE (LQ ("pow2")),
   so 0xB0 (LQ ("and")),
   so 0xB1 (LQ ("or")),
   so 0xB2 (LQ ("xor")),
   so 0xB3 (LQ ("not")),
   so 0xB4 (LQ ("fits")),
   so 0xB5 (LQ ("ufits")),
   so 0xB8 (LQ ("sgn")),
   so 0xB9 (LQ ("less")),
   so 0xBA (LQ ("equal")),
   so 0xBB (LQ ("leq")),
   so 0xBC (LQ ("greater")),
   so 0xBD (LQ ("neq")),
   so 0xBE (LQ ("geq")),
   so 0xBF (LQ ("cmp")),
   so 0xC0 (LQ ("eqint")),
   so 0xC1 (LQ ("lessint")),
   so 0xC2 (LQ ("gtint")),
   so 0xC3 (LQ ("neqint"))] [(0xB6, subB6quiet)]
/-- add_code_page_0_comparsion, subset behind 0xC7. -/
def subC7 : HTable :=
  mkNode [
   so 0x00 (LP ("sempty")),
   so 0x01 (LP ("sdempty")),
   so 0x02 (LP ("srempty")),
   so 0x03 (LP ("sdfirst")),
   so 0x04 (LP ("sdlexcmp")),
   so 0x05 (LP ("sdeq")),
   so 0x08 (LP ("sdpfx")),
   so 0x09 (LP ("sdpfxrev")),
   so 0x0A (LP ("sdppfx")),
   so 0x0B (LP ("sdppfxrev")),
   so 0x0C (LP ("sdsfx")),
   so 0x0D (LP ("sdsfxrev")),
   so 0x0E (LP ("sdpsfx")),
   so 0x0F (LP ("sdpsfxrev")),
   so 0x10 (LP ("sdcntlead0")),
   so 0x11 (LP ("sdcntlead1")),
   so 0x12 (LP ("sdcnttrail0")),
   so 0x13 (LP ("sdcnttrail1"))] []
/-- add_code_page_0_cell, subset behind 0xCF. -/
def subCF : HTable :=
  mkNode [
   so 0x00 (LP ("stix")),
   so 0x01 (LP ("stux")),
   so 0x02 (LP ("stixr")),
   so 0x03 (LP ("stuxr")),
   so 0x04 (LP ("stixq")),
   so 0x05 (LP ("stuxq")),
   so 0x06 (LP ("stixrq")),
   so 0x07 (LP ("stuxrq")),
   so 0x08 (LP ("sti")),
   so 0x09 (LP ("stu")),
   so 0x0A (LP ("stir")),
   so 0x0B (LP ("stur")),
   so 0x0C (LP ("stiq")),
   so 0x0D (LP ("stuq")),
   so 0x0E (LP ("stirq")),
   so 0x0F (LP ("sturq")),
   so 0x10 (LP ("stref")),
   so 0x11 (LP ("stbref")),
   so 0x12 (LP ("stslice")),
   so 0x13 (LP ("stb")),
   so 0x14 (LP ("strefr")),
   so 0x15 (LP ("endcst")),
   so 0x16 (LP ("stslicer")),
   so 0x17 (LP ("stbr")),
   so 0x18 (LP ("strefq")),
   so 0x19 (LP ("stbrefq")),
   so 0x1A (LP ("stsliceq")),
   so 0x1B (LP ("stbq")),
   so 0x1C (LP ("strefrq")),
   so 0x1D (LP ("stbrefrq")),
   so 0x1E (LP ("stslicerq")),
   so 0x1F (LP ("stbrq")),
   so 0x20 (LP ("strefconst")),
   so 0x21 (LP ("stref2const")),
   so 0x23 (LP ("endxc")),
   so 0x28 (LP ("stile4")),
   so 0x29 (LP ("stule4")),
   so 0x2A (LP ("stile8")),
   so 0x2B (LP ("stule8")),
   so 0x30 (LP ("bdepth")),
   so 0x31 (LP ("bbits")),
   so 0x32 (LP ("brefs")),
   so 0x33 (LP ("bbitrefs")),
   so 0x35 (LP ("brembits")),
   so 0x36 (LP ("bremrefs")),
   so 0x37 (LP ("brembitrefs")),
   so 0x38 (LP ("bchkbits_short")),
   so 0x39 (LP ("bchkbits_long")),
   so 0x3A (LP ("bchkrefs")),
   so 0x3B (LP ("bchkbitrefs")),
   so 0x3C (LP ("bchkbitsq_short")),
   so 0x3D (LP ("bchkbitsq_long")),
   so 0x3E (LP ("bchkrefsq")),
   so 0x3F (LP ("bchkbitrefsq")),
   so 0x40 (LP ("stzeroes")),
   so 0x41 (LP ("stones")),
   so 0x42 (LP ("stsame")),
   sr 0x80 0xFF (LP ("stsliceconst")),
   so 0xFF (LP ("stsliceconst"))] []
/-- subset behind 0xD7. -/
def subD7 : HTable :=
  mkNode [
   so 0x00 (LP ("ldix")),
   so 0x01 (LP ("ldux")),
   so 0x02 (LP ("pldix")),
   so 0x03 (LP ("pldux")),
   so 0x04 (LP ("ldixq")),
   so 0x05 (LP ("lduxq")),
   so 0x06 (LP ("pldixq")),
   so 0x07 (LP ("plduxq")),
   so 0x08 (LP ("ldi")),
   so 0x09 (LP ("ldu")),
   so 0x0A (LP ("pldi")),
   so 0x0B (LP ("pldu")),
   so 0x0C (LP ("ldiq")),
   so 0x0D (LP ("lduq")),
   so 0x0E (LP ("pldiq")),
   so 0x0F (LP ("plduq")),
   sr 0x10 0x18 (LP ("plduz")),
   so 0x18 (LP ("ldslicex")),
   so 0x19 (LP ("pldslicex")),
   so 0x1A (LP ("ldslicexq")),
   so 0x1B (LP ("pldslicexq")),
   so 0x1C (LP ("ldslice")),
   so 0x1D (LP ("pldslice")),
   so 0x1E (LP ("ldsliceq")),
   so 0x1F (LP ("pldsliceq")),
   so 0x20 (LP ("pldslicex")),
   so 0x21 (LP ("sdskipfirst")),
   so 0x22 (LP ("sdcutlast")),
   so 0x23 (LP ("sdskiplast")),
   so 0x24 (LP ("sdsubstr")),
   so 0x26 (LP ("sdbeginsx")),
   so 0x27 (LP ("sdbeginsxq")),
   sr 0x28 0x2C (LP ("sdbegins")),
   sr 0x2C 0x30 (LP ("sdbeginsq")),
   so 0x30 (LP ("scutfirst")),
   so 0x31 (LP ("sskipfirst")),
   so 0x32 (LP ("scutlast")),
   so 0x33 (LP ("sskiplast")),
   so 0x34 (LP ("subslice")),
   so 0x36 (LP ("split")),
   so 0x37 (LP ("splitq")),
   so 0x39 (LP ("xctos")),
   so 0x3A (LP ("xload")),
   so 0x3B (LP ("xloadq")),
   so 0x41 (LP ("schkbits")),
   so 0x42 (LP ("schkrefs")),
   so 0x43 (LP ("schkbitrefs")),
   so 0x45 (LP ("schkbitsq")),
   so 0x46 (LP ("schkrefsq")),
   so 0x47 (LP ("schkbitrefsq")),
   so 0x48 (LP ("pldrefvar")),
   so 0x49 (LP ("sbits")),
   so 0x4A (LP ("srefs")),
   so 0x4B (LP ("sbitrefs")),
   so 0x4C (LP ("pldref")),
   sr 0x4D 0x50 (LP ("pldrefidx")),
   so 0x50 (LP ("ldile4")),
   so 0x51 (LP ("ldule4")),
   so 0x52 (LP ("ldile8")),
   so 0x53 (LP ("ldule8")),
   so 0x54 (LP ("pldile4")),
   so 0x55 (LP ("pldule4")),
   so 0x56 (LP ("pldile8")),
   so 0x57 (LP ("pldule8")),
   so 0x58 (LP ("ldile4q")),
   so 0x59 (LP ("ldule4q")),
   so 0x5A (LP ("ldile8q")),
   so 0x5B (LP ("ldule8q")),
   so 0x5C (LP ("pldile4q")),
   so 0x5D (LP ("pldule4q")),
   so 0x5E (LP ("pldile8q")),
   so 0x5F (LP ("pldule8q")),
   so 0x60 (LP ("ldzeroes")),
   so 0x61 (LP ("ldones")),
   so 0x62 (LP ("ldsame")),
   so 0x64 (LP ("sdepth")),
   so 0x65 (LP ("cdepth"))] []
/-- add_code_page_0_control_flow, subset behind 0xDB. -/
def subDB : HTable :=
  mkNode [
   sr 0x00 0x10 (LP ("callxargs")),
   sr 0x10 0x20 (LP ("jmpxargs")),
   sr 0x20 0x30 (LP ("retargs")),
   so 0x30 (LP ("ret")),
   so 0x31 (LP ("retalt")),
   so 0x32 (LP ("retbool")),
   so 0x34 (LP ("callcc")),
   so 0x35 (LP ("jmpxdata")),
   so 0x36 (LP ("callccargs")),
   so 0x38 (LP ("callxva")),
   so 0x39 (LP ("retva")),
   so 0x3A (LP ("jmpxva")),
   so 0x3B (LP ("callccva")),
   so 0x3C (LP ("callref")),
   so 0x3D (LP ("jmpref")),
   so 0x3E (LP ("jmprefdata")),
   so 0x3F (LP ("retdata"))] []
/-- subset behind 0xE3. -/
def subE3 : HTable :=
  mkNode [
   so 0x00 (LP ("ifref")),
   so 0x01 (LP ("ifnotref")),
   so 0x02 (LP ("ifjmpref")),
   so 0x03 (LP ("ifnotjmpref")),
   so 0x04 (LP ("condsel")),
   so 0x05 (LP ("condselchk")),
   so 0x08 (LP ("ifretalt")),
   so 0x09 (LP ("ifnotretalt")),
   so 0x0D (LP ("ifrefelse")),
   so 0x0E (LP ("ifelseref")),
   so 0x0F (LP ("ifrefelseref")),
   so 0x14 (LP ("repeat_break")),
   so 0x15 (LP ("repeatend_break")),
   so 0x16 (LP ("until_break")),
   so 0x17 (LP ("untilend_break")),
   so 0x18 (LP ("while_break")),
   so 0x19 (LP ("whileend_break")),
   so 0x1A (LP ("again_break")),
   so 0x1B (LP ("againend_break")),
   sr 0x80 0xA0 (LP ("ifbitjmp")),
   sr 0xA0 0xC0 (LP ("ifnbitjmp")),
   sr 0xC0 0xE0 (LP ("ifbitjmpref")),
   sr 0xE0 0xFF (LP ("ifnbitjmpref")),
   so 0xFF (LP ("ifnbitjmpref"))] []
/-- subset behind 0xED. -/
def subED : HTable :=
  mkNode [
   sr 0x00 0x10 (LP ("returnargs")),
   so 0x10 (LP ("returnva")),
   so 0x11 (LP ("setcontva")),
   so 0x12 (LP ("setnumva")),
   so 0x1E (LP ("bless")),
   so 0x1F (LP ("blessva")),
   sr 0x40 0x50 (LP ("pushctr")),
   sr 0x50 0x60 (LP ("popctr")),
   sr 0x60 0x70 (LP ("setcontctr")),
   sr 0x70 0x80 (LP ("setretctr")),
   sr 0x80 0x90 (LP ("setaltctr")),
   sr 0x90 0xA0 (LP ("popsave")),
   sr 0xA0 0xB0 (LP ("save")),
   sr 0xB0 0xC0 (LP ("savealt")),
   sr 0xC0 0xD0 (LP ("saveboth")),
   so 0xE0 (LP ("pushctrx")),
   so 0xE1 (LP ("popctrx")),
   so 0xE2 (LP ("setcontctrx")),
   so 0xF0 (LP ("compos")),
   so 0xF1 (LP ("composalt")),
   so 0xF2 (LP ("composboth")),
   so 0xF3 (LP ("atexit")),
   so 0xF4 (LP ("atexitalt")),
   so 0xF5 (LP ("setexitalt")),
   so 0xF6 (LP ("thenret")),
   so 0xF7 (LP ("thenretalt")),
   so 0xF8 (LP ("invert")),
   so 0xF9 (LP ("booleval")),
   so 0xFA (LP ("samealt")),
   so 0xFB (LP ("samealt_save"))] []
/-- subset behind 0xF1. -/
def subF1 : HTable :=
  mkNode [
   sr 0x00 0x40 (LP ("call_long")),
   sr 0x40 0x80 (LP ("jmp")),
   sr 0x80 0xC0 (LP ("prepare"))] []
/-- add_code_page_0_exceptions, subset behind 0xF2. -/
def subF2 : HTable :=
  mkNode [
   sr 0x00 0x40 (LP ("throw_short")),
   sr 0x40 0x80 (LP ("throwif_short")),
   sr 0x80 0xC0 (LP ("throwifnot_short")),
   sr 0xC0 0xC8 (LP ("throw_long")),
   sr 0xC8 0xD0 (LP ("throwarg")),
   sr 0xD0 0xD8 (LP ("throwif_long")),
   sr 0xD8 0xE0 (LP ("throwargif")),
   sr 0xE0 0xE8 (LP ("throwifnot_long")),
   sr 0xE8 0xF0 (LP ("throwargifnot")),
   so 0xF0 (LP ("throwany")),
   so 0xF1 (LP ("throwargany")),
   so 0xF2 (LP ("throwanyif")),
   so 0xF3 (LP ("throwarganyif")),
   so 0xF4 (LP ("throwanyifnot")),
   so 0xF5 (LP ("throwarganyifnot")),
   so 0xFF (LP ("try"))] []
/-- add_code_page_0_dictionaries, subset behind 0xF4. -/
def subF4 : HTable :=
  mkNode [
   so 0x00 (LP ("stdict")),
   so 0x01 (LP ("skipdict")),
   so 0x02 (LP ("lddicts")),
   so 0x03 (LP ("plddicts")),
   so 0x04 (LP ("lddict")),
   so 0x05 (LP ("plddict")),
   so 0x06 (LP ("lddictq")),
   so 0x07 (LP ("plddictq")),
   so 0x0A (LP ("dictget")),
   so 0x0B (LP ("dictgetref")),
   so 0x0C (LP ("dictiget")),
   so 0x0D (LP ("dictigetref")),
   so 0x0E (LP ("dictuget")),
   so 0x0F (LP ("dictugetref")),
   so 0x12 (LP ("dictset")),
   so 0x13 (LP ("dictsetref")),
   so 0x14 (LP ("dictiset")),
   so 0x15 (LP ("dictisetref")),
   so 0x16 (LP ("dictuset")),
   so 0x17 (LP ("dictusetref")),
   so 0x1A (LP ("dictsetget")),
   so 0x1B (LP ("dictsetgetref")),
   so 0x1C (LP ("dictisetget")),
   so 0x1D (LP ("dictisetgetref")),
   so 0x1E (LP ("dictusetget")),
   so 0x1F (LP ("dictusetgetref")),
   so 0x22 (LP ("dictreplace")),
   so 0x23 (LP ("dictreplaceref")),
   so 0x24 (LP ("dictireplace")),
   so 0x25 (LP ("dictireplaceref")),
   so 0x26 (LP ("dictureplace")),
   so 0x27 (LP ("dictureplaceref")),
   so 0x2A (LP ("dictreplaceget")),
   so 0x2B (LP ("dictreplacegetref")),
   so 0x2C (LP ("dictireplaceget")),
   so 0x2D (LP ("dictireplacegetref")),
   so 0x2E (LP ("dictureplaceget")),
   so 0x2F (LP ("dictureplacegetref")),
   so 0x32 (LP ("dictadd")),
   so 0x33 (LP ("dictaddref")),
   so 0x34 (LP ("dictiadd")),
   so 0x35 (LP ("dictiaddref")),
   so 0x36 (LP ("dictuadd")),
   so 0x37 (LP ("dictuaddref")),
   so 0x3A (LP ("dictaddget")),
   so 0x3B (LP ("dictaddgetref")),
   so 0x3C (LP ("dictiaddget")),
   so 0x3D (LP ("dictiaddgetref")),
   so 0x3E (LP ("dictuaddget")),
   so 0x3F (LP ("dictuaddgetref")),
   so 0x41 (LP ("dictsetb")),
   so 0x42 (LP ("dictisetb")),
   so 0x43 (LP ("dictusetb")),
   so 0x45 (LP ("dictsetgetb")),
   so 0x46 (LP ("dictisetgetb")),
   so 0x47 (LP ("dictusetgetb")),
   so 0x49 (LP ("dictreplaceb")),
   so 0x4A (LP ("dictireplaceb")),
   so 0x4B (LP ("dictureplaceb")),
   so 0x4D (LP ("dictreplacegetb")),
   so 0x4E (LP ("dictireplacegetb")),
   so 0x4F (LP ("dictureplacegetb")),
   so 0x51 (LP ("dictaddb")),
   so 0x52 (LP ("dictiaddb")),
   so 0x53 (LP ("dictuaddb")),
   so 0x55 (LP ("dictaddgetb")),
   so 0x56 (LP ("dictiaddgetb")),
   so 0x57 (LP ("dictuaddgetb")),
   so 0x59 (LP ("dictdel")),
   so 0x5A (LP ("dictidel")),
   so 0x5B (LP ("dictudel")),
   so 0x62 (LP ("dictdelget")),
   so 0x63 (LP ("dictdelgetref")),
   so 0x64 (LP ("dictidelget")),
   so 0x65 (LP ("dictidelgetref")),
   so 0x66 (LP ("dictudelget")),
   so 0x67 (LP ("dictudelgetref")),
   so 0x69 (LP ("dictgetoptref")),
   so 0x6A (LP ("dictigetoptref")),
   so 0x6B (LP ("dictugetoptref")),
   so 0x6D (LP ("dictsetgetoptref")),
   so 0x6E (LP ("dictisetgetoptref")),
   so 0x6F (LP ("dictusetgetoptref")),
   so 0x70 (LP ("pfxdictset")),
   so 0x71 (LP ("pfxdictreplace")),
   so 0x72 (LP ("pfxdictadd")),
   so 0x73 (LP ("pfxdictdel")),
   so 0x74 (LP ("dictgetnext")),
   so 0x75 (LP ("dictgetnexteq")),
   so 0x76 (LP ("dictgetprev")),
   so 0x77 (LP ("dictgetpreveq")),
   so 0x78 (LP ("dictigetnext")),
   so 0x79 (LP ("dictigetnexteq")),
   so 0x7A (LP ("dictigetprev")),
   so 0x7B (LP ("dictigetpreveq")),
   so 0x7C (LP ("dictugetnext")),
   so 0x7D (LP ("dictugetnexteq")),
   so 0x7E (LP ("dictugetprev")),
   so 0x7F (LP ("dictugetpreveq")),
   so 0x82 (LP ("dictmin")),
   so 0x83 (LP ("dictminref")),
   so 0x84 (LP ("dictimin")),
   so 0x85 (LP ("dictiminref")),
   so 0x86 (LP ("dictumin")),
   so 0x87 (LP ("dictuminref")),
   so 0x8A (LP ("dictmax")),
   so 0x8B (LP ("dictmaxref")),
   so 0x8C (LP ("dictimax")),
   so 0x8D (LP ("dictimaxref")),
   so 0x8E (LP ("dictumax")),
   so 0x8F (LP ("dictumaxref")),
   so 0x92 (LP ("dictremmin")),
   so 0x93 (LP ("dictremminref")),
   so 0x94 (LP ("dictiremmin")),
   so 0x95 (LP ("dictiremminref")),
   so 0x96 (LP ("dicturemmin")),
   so 0x97 (LP ("dicturemminref")),
   so 0x9A (LP ("dictremmax")),
   so 0x9B (LP ("dictremmaxref")),
   so 0x9C (LP ("dictiremmax")),
   so 0x9D (LP ("dictiremmaxref")),
   so 0x9E (LP ("dicturemmax")),
   so 0x9F (LP ("dicturemmaxref")),
   so 0xA0 (LP ("dictigetjmp")),
   so 0xA1 (LP ("dictugetjmp")),
   so 0xA2 (LP ("dictigetexec")),
   so 0xA3 (LP ("dictugetexec")),
   sr 0xA4 0xA8 (LP ("dictpushconst")),
   so 0xA8 (LP ("pfxdictgetq")),
   so 0xA9 (LP ("pfxdictget")),
   so 0xAA (LP ("pfxdictgetjmp")),
   so 0xAB (LP ("pfxdictgetexec")),
   sr 0xAC 0xAF (LP ("pfxdictswitch")),
   so 0xAF (LP ("pfxdictswitch")),
   so 0xB1 (LP ("subdictget")),
   so 0xB2 (LP ("subdictiget")),
   so 0xB3 (LP ("subdictuget")),
   so 0xB5 (LP ("subdictrpget")),
   so 0xB6 (LP ("subdictirpget")),
   so 0xB7 (LP ("subdicturpget")),
   so 0xBC (LP ("dictigetjmpz")),
   so 0xBD (LP ("dictugetjmpz")),
   so 0xBE (LP ("dictigetexecz")),
   so 0xBF (LP ("dictugetexecz"))] []
/-- add_code_page_0_gas_rand_config, subset behind 0xF8. -/
def subF8 : HTable :=
  mkNode [
   so 0x00 (LP ("accept")),
   so 0x01 (LP ("setgaslimit")),
   so 0x02 (LP ("buygas")),
   so 0x04 (LP ("gramtogas")),
   so 0x05 (LP ("gastogram")),
   so 0x0F (LP ("commit")),
   so 0x10 (LP ("randu256")),
   so 0x11 (LP ("rand")),
   so 0x14 (LP ("setrand")),
   so 0x15 (LP ("addrand")),
   so 0x20 (LP ("getparam")),
   so 0x21 (LP ("getparam")),
   so 0x22 (LP ("getparam")),
   so 0x23 (LP ("now")),
   so 0x24 (LP ("blocklt")),
   so 0x25 (LP ("ltime")),
   so 0x26 (LP ("randseed")),
   so 0x27 (LP ("balance")),
   so 0x28 (LP ("my_addr")),
   so 0x29 (LP ("config_root")),
   so 0x30 (LP ("config_dict")),
   so 0x32 (LP ("config_ref_param")),
   so 0x33 (LP ("config_opt_param")),
   so 0x40 (LP ("getglobvar")),
   sr 0x41 0x5F (LP ("getglob")),
   so 0x5F (LP ("getglob")),
   so 0x60 (LP ("setglobvar")),
   sr 0x61 0x7F (LP ("setglob")),
   so 0x7F (LP ("setglob"))] []
/-- add_code_page_0_crypto, subset behind 0xF9. -/
def subF9 : HTable :=
  mkNode [
   so 0x00 (LP ("hashcu")),
   so 0x01 (LP ("hashsu")),
   so 0x02 (LP ("sha256u")),
   so 0x10 (LP ("chksignu")),
   so 0x11 (LP ("chksigns")),
   so 0x40 (LP ("cdatasizeq")),
   so 0x41 (LP ("cdatasize")),
   so 0x42 (LP ("sdatasizeq")),
   so 0x43 (LP ("sdatasize"))] []
/-- add_code_page_0_blockchain, subset behind 0xFA. -/
def subFA : HTable :=
  mkNode [
   so 0x00 (LP ("ldgrams")),
   so 0x01 (LP ("ldvarint16")),
   so 0x02 (LP ("stgrams")),
   so 0x03 (LP ("stvarint16")),
   so 0x04 (LP ("ldvaruint32")),
   so 0x05 (LP ("ldvarint32")),
   so 0x06 (LP ("stvaruint32")),
   so 0x07 (LP ("stvarint32")),
   so 0x40 (LS ("ldmsgaddr")),
   so 0x41 (LQ ("ldmsgaddr")),
   so 0x42 (LS ("parsemsgaddr")),
   so 0x43 (LQ ("parsemsgaddr")),
   so 0x44 (LS ("rewrite_std_addr")),
   so 0x45 (LQ ("rewrite_std_addr")),
   so 0x46 (LS ("rewrite_var_addr")),
   so 0x47 (LQ ("rewrite_var_addr"))] []
/-- subset behind 0xFB. -/
def subFB : HTable :=
  mkNode [
   so 0x00 (LP ("sendrawmsg")),
   so 0x02 (LP ("rawreserve")),
   so 0x03 (LP ("rawreservex")),
   so 0x04 (LP ("setcode")),
   so 0x06 (LP ("setlibcode")),
   so 0x07 (LP ("changelib"))] []
/-- add_code_page_0_debug, subset behind 0xFE. -/
def subFE : HTable :=
  mkNode [
   so 0x00 (LP ("dump_stack")),
   sr 0x01 0x0F (LP ("dump_stack_top")),
   so 0x10 (LP ("dump_hex")),
   so 0x11 (LP ("print_hex")),
   so 0x12 (LP ("dump_bin")),
   so 0x13 (LP ("print_bin")),
   so 0x14 (LP ("dump_str")),
   so 0x15 (LP ("print_str")),
   so 0x1E (LP ("debug_off")),
   so 0x1F (LP ("debug_on")),
   sr 0x20 0x2F (LP ("dump_var")),
   sr 0x30 0x3F (LP ("print_var")),
   sr 0xF0 0xFF (LP ("dump_string")),
   so 0xFF (LP ("dump_string"))] []
/-- new_code_page_0, codepage-switch subset behind 0xFF. -/
def subFF : HTable :=
  mkNode [
   sr 0x00 0xF0 (LP ("setcp")),
   so 0xF0 (LP ("setcpx")),
   sr 0xF1 0xFF (LP ("setcp")),
   so 0xFF (LP ("setcp"))] []
/-- Root-level registrations of Handlers::addCodePage0PartStack (direct slots). -/
def stackOps : List (Nat × Nat × Loader) :=
  [
   so 0x00 (LP ("nop")),
   sr 0x01 0x10 (LP ("xchg_simple")),
   so 0x10 (LP ("xchg_std")),
   so 0x11 (LP ("xchg_long")),
   sr 0x12 0x20 (LP ("xchg_simple")),
   sr 0x20 0x30 (LP ("push_simple")),
   sr 0x30 0x40 (LP ("pop_simple")),
   sr 0x40 0x50 (LP ("xchg3")),
   so 0x50 (LP ("xchg2")),
   so 0x51 (LP ("xcpu")),
   so 0x52 (LP ("puxc")),
   so 0x53 (LP ("push2")),
   so 0x55 (LP ("blkswap")),
   so 0x56 (LP ("push")),
   so 0x57 (LP ("pop")),
   so 0x58 (LP ("rot")),
   so 0x59 (LP ("rotrev")),
   so 0x5A (LP ("swap2")),
   so 0x5B (LP ("drop2")),
   so 0x5C (LP ("dup2")),
   so 0x5D (LP ("over2")),
   so 0x5E (LP ("reverse")),
   so 0x60 (LP ("pick")),
   so 0x61 (LP ("rollx")),
   so 0x62 (LP ("rollrevx")),
   so 0x63 (LP ("blkswx")),
   so 0x64 (LP ("revx")),
   so 0x65 (LP ("dropx")),
   so 0x66 (LP ("tuck")),
   so 0x67 (LP ("xchgx")),
   so 0x68 (LP ("depth")),
   so 0x69 (LP ("chkdepth")),
   so 0x6A (LP ("onlytopx")),
   so 0x6B (LP ("onlyx"))]
/-- Root-level add_subset calls of Handlers::addCodePage0PartStack, in call order. -/
def stackSubs : List (Nat × HTable) :=
  [(0x54, sub54), (0x5F, sub5F), (0x6C, sub6C)]
/-- Root-level registrations of Handlers::addCodePage0Tuple (direct slots). -/
def tupleOps : List (Nat × Nat × Loader) :=
  [
   so 0x6D (LP ("null")),
   so 0x6E (LP ("isnull"))]
/-- Root-level add_subset calls of Handlers::addCodePage0Tuple, in call order. -/
def tupleSubs : List (Nat × HTable) :=
  [(0x6F, sub6F)]
/-- Root-level registrations of Handlers::addCodePage0PartConstant (direct slots). -/
def constantOps : List (Nat × Nat × Loader) :=
  [
   sr 0x70 0x82 (LP ("pushint")),
   so 0x82 (LP ("pushint_big")),
   so 0x84 (LP ("pushpow2dec")),
   so 0x85 (LP ("pushnegpow2")),
   so 0x88 (LP ("pushref")),
   so 0x89 (LP ("pushrefslice")),
   so 0x8A (LP ("pushrefcont")),
   so 0x8B (LP ("pushslice_short")),
   so 0x8C (LP ("pushslice_mid")),
   so 0x8D (LP ("pushslice_long")),
   sr 0x8E 0x90 (LP ("pushcont_long")),
   sr 0x90 0xA0 (LP ("pushcont_short"))]
/-- Root-level add_subset calls of Handlers::addCodePage0PartConstant, in call order. -/
def constantSubs : List (Nat × HTable) :=
  [(0x83, sub83)]
/-- Root-level registrations of Handlers::addCodePage0Arithmetic (direct slots). -/
def arithOps : List (Nat × Nat × Loader) :=
  [
   so 0xA0 (LS ("add")),
   so 0xA1 (LS ("sub")),
   so 0xA2 (LS ("subr")),
   so 0xA3 (LS ("negate")),
   so 0xA4 (LS ("inc")),
   so 0xA5 (LS ("dec")),
   so 0xA6 (LS ("addconst")),
   so 0xA7 (LS ("mulconst")),
   so 0xA8 (LS ("mul")),
   so 0xA9 (LS ("divmod")),
   so 0xAA (LS ("lshift")),
   so 0xAB (LS ("rshift")),
   so 0xAC (LS ("lshift")),
   so 0xAD (LS ("rshift")),
   so 0xAE (LS ("pow2")),
   so 0xB0 (LS ("and")),
   so 0xB1 (LS ("or")),
   so 0xB2 (LS ("xor")),
   so 0xB3 (LS ("not")),
   so 0xB4 (LS ("fits")),
   so 0xB5 (LS ("ufits"))]
/-- Root-level add_subset calls of Handlers::addCodePage0Arithmetic, in call order. -/
def arithSubs : List (Nat × HTable) :=
  [(0xB6, subB6sig), (0xB7, subB7)]
/-- Root-level registrations of Handlers::addCodePage0Comparsion (direct slots). -/
def compareOps : List (Nat × Nat × Loader) :=
  [
   so 0xB8 (LS ("sgn")),
   so 0xB9 (LS ("less")),
   so 0xBA (LS ("equal")),
   so 0xBB (LS ("leq")),
   so 0xBC (LS ("greater")),
   so 0xBD (LS ("neq")),
   so 0xBE (LS ("geq")),
   so 0xBF (LS ("cmp")),
   so 0xC0 (LS ("eqint")),
   so 0xC1 (LS ("lessint")),
   so 0xC2 (LS ("gtint")),
   so 0xC3 (LS ("neqint")),
   so 0xC4 (LP ("isnan")),
   so 0xC5 (LP ("chknan"))]
/-- Root-level add_subset calls of Handlers::addCodePage0Comparsion, in call order. -/
def compareSubs : List (Nat × HTable) :=
  [(0xC7, subC7)]
/-- Root-level registrations of Handlers::addCodePage0Cell (direct slots). -/
def cellOps : List (Nat × Nat × Loader) :=
  [
   so 0xC8 (LP ("newc")),
   so 0xC9 (LP ("endc")),
   so 0xCA (LP ("sti")),
   so 0xCB (LP ("stu")),
   so 0xCC (LP ("stref")),
   so 0xCD (LP ("endcst")),
   so 0xCE (LP ("stslice")),
   so 0xD0 (LP ("ctos")),
   so 0xD1 (LP ("ends")),
   so 0xD2 (LP ("ldi")),
   so 0xD3 (LP ("ldu")),
   so 0xD4 (LP ("ldref")),
   so 0xD5 (LP ("ldrefrtos")),
   so 0xD6 (LP ("ldslice"))]
/-- Root-level add_subset calls of Handlers::addCodePage0Cell, in call order. -/
def cellSubs : List (Nat × HTable) :=
  [(0xCF, subCF), (0xD7, subD7)]
/-- Root-level registrations of Handlers::addCodePage0ControlFlow (direct slots). -/
def flowOps : List (Nat × Nat × Loader) :=
  [
   so 0xD8 (LP ("callx")),
   so 0xD9 (LP ("jmpx")),
   so 0xDA (LP ("callxargs")),
   so 0xDE (LP ("if")),
   so 0xDC (LP ("ifret")),
   so 0xDD (LP ("ifnotret")),
   so 0xDF (LP ("ifnot")),
   so 0xE0 (LP ("ifjmp")),
   so 0xE1 (LP ("ifnotjmp")),
   so 0xE2 (LP ("ifelse")),
   so 0xE4 (LP ("repeat")),
   so 0xE5 (LP ("repeatend")),
   so 0xE6 (LP ("until")),
   so 0xE7 (LP ("untilend")),
   so 0xE8 (LP ("while")),
   so 0xE9 (LP ("whileend")),
   so 0xEA (LP ("again")),
   so 0xEB (LP ("againend")),
   so 0xEC (LP ("setcontargs")),
   so 0xEE (LP ("blessargs")),
   so 0xF0 (LP ("call_short"))]
/-- Root-level add_subset calls of Handlers::addCodePage0ControlFlow, in call order. -/
def flowSubs : List (Nat × HTable) :=
  [(0xDB, subDB), (0xE3, subE3), (0xED, subED), (0xF1, subF1)]
/-- Root-level registrations of Handlers::addCodePage0Exceptions (direct slots). -/
def excOps : List (Nat × Nat × Loader) :=
  [
   so 0xF3 (LP ("tryargs"))]
/-- Root-level add_subset calls of Handlers::addCodePage0Exceptions, in call order. -/
def excSubs : List (Nat × HTable) :=
  [(0xF2, subF2)]
/-- Root-level registrations of Handlers::addCodePage0Dictionaries (direct slots). -/
def dictOps : List (Nat × Nat × Loader) :=
  []
/-- Root-level add_subset calls of Handlers::addCodePage0Dictionaries, in call order. -/
def dictSubs : List (Nat × HTable) :=
  [(0xF4, subF4)]
/-- Root-level registrations of Handlers::addCodePage0GasRandConfig (direct slots). -/
def gasOps : List (Nat × Nat × Loader) :=
  []
/-- Root-level add_subset calls of Handlers::addCodePage0GasRandConfig, in call order. -/
def gasSubs : List (Nat × HTable) :=
  [(0xF8, subF8)]
/-- Root-level registrations of Handlers::addCodePage0Blockchain (direct slots). -/
def blockchainOps : List (Nat × Nat × Loader) :=
  []
/-- Root-level add_subset calls of Handlers::addCodePage0Blockchain, in call order. -/
def blockchainSubs : List (Nat × HTable) :=
  [(0xFA, subFA), (0xFB, subFB)]
/-- Root-level registrations of Handlers::addCodePage0Crypto (direct slots). -/
def cryptoOps : List (Nat × Nat × Loader) :=
  []
/-- Root-level add_subset calls of Handlers::addCodePage0Crypto, in call order. -/
def cryptoSubs : List (Nat × HTable) :=
  [(0xF9, subF9)]
/-- Root-level registrations of Handlers::addCodePage0Debug (direct slots). -/
def debugOps : List (Nat × Nat × Loader) :=
  []
/-- Root-level add_subset calls of Handlers::addCodePage0Debug, in call order. -/
def debugSubs : List (Nat × HTable) :=
  [(0xFE, subFE)]
/-- Handlers::new_code_page_0: the root node, assembled from the thematic
groups in source order, with the final add_subset(0xFF, ...) codepage-switch
child appended last. -/
def table0 : HTable :=
  mkNode (stackOps ++ tupleOps ++ constantOps ++ arithOps ++ compareOps ++ cellOps ++ flowOps ++ excOps ++ dictOps ++ gasOps ++ blockchainOps ++ cryptoOps ++ debugOps)
    (stackSubs ++ tupleSubs ++ constantSubs ++ arithSubs ++ compareSubs ++ cellSubs ++ flowSubs ++ excSubs ++ dictSubs ++ gasSubs ++ blockchainSubs ++ cryptoSubs ++ debugSubs ++ [(0xFF, subFF)])

/-- The root slot that a first byte indexes in the constructed table. -/
def rootSlot (b : Nat) : Handler := (HTable.directs table0).getD b (Handler.direct Loader.unknown)

/-- The slot that byte b indexes in a given node. -/
def slotIn (t : HTable) (b : Nat) : Handler := (HTable.directs t).getD b (Handler.direct Loader.unknown)

/-- The child node behind byte b of a node, when that slot is a Subset. -/
def subAt (t : HTable) (b : Nat) : Option HTable :=
  match (HTable.directs t).getD b (Handler.direct Loader.unknown) with
  | Handler.subset i => (HTable.subsets t).get? i
  | _ => none

/-- Modelled from the spec: the loader bodies live in disasm/loader.rs, which is
not under src/. The spec says the sentinel load_unknown denotes "no instruction
assigned to this code" and that an Unknown slot at any level is a decoding
failure, so invoking the sentinel fails with the unknown-opcode error, while
any registered loader decodes an instruction (its operand reads are opaque
here and the remainder is returned unchanged). -/
def invokeLoader (l : Loader) (rest : List Nat) : Except DErr (Loader × List Nat) :=
  match l with
  | Loader.unknown => Except.error DErr.unknownOpcode
  | _ => Except.ok (l, rest)

/-- One full decode step: dispatch through the table, then invoke the loader. -/
def decodeOne (t : HTable) (bytes : List Nat) : Except DErr (Loader × List Nat) :=
  match getHandler bytes t with
  | Except.ok p => invokeLoader p.1 p.2
  | Except.error e => Except.error e

/-- C2 counterexample: on the slice whose first byte is 0xF5 (an Unknown root
slot of code page 0), get_handler succeeds and returns the load_unknown
sentinel loader; it does not return a decoding-failure error, contrary to
the claim. -/
theorem C2_unknown_slot_counterexample :
    getHandler [0xF5] table0 = Except.ok (Loader.unknown, []) ∧
    ∀ e, getHandler [0xF5] table0 ≠ Except.error e := by
  refine ⟨rfl, fun e h => ?_⟩
  rw [show getHandler [0xF5] table0 = Except.ok (Loader.unknown, []) from rfl] at h
  exact Except.noConfusion h

/-- C2 amended: an Unknown slot makes get_handler return the sentinel
load_unknown loader (not an error); the decoding failure arises when that
loader is invoked, so the composed decode of any such slice fails with the
unknown-opcode error; in particular the root slot 0xF5 is Unknown. -/
theorem C2_unknown_slot :
    (∀ (bytes rest : List Nat), getHandler bytes table0 = Except.ok (Loader.unknown, rest) →
      decodeOne table0 bytes = Except.error DErr.unknownOpcode) ∧
    getHandler [0xF5] table0 = Except.ok (Loader.unknown, []) := by
  refine ⟨fun bytes rest h => ?_, rfl⟩
  unfold decodeOne
  rw [h]
  rfl

/-- C2 witness: decoding the one-byte slice 0xF5 fails with unknown-opcode. -/
theorem C2_unknown_slot_witness :
    decodeOne table0 [0xF5] = Except.error DErr.unknownOpcode :=
  C2_unknown_slot.1 [0xF5] [] rfl

/-! ### C5: byte consumption of get_handler -/

/-- The dispatch tree is at most n levels deep. -/
def depthLE : Nat → HTable → Bool
  | 0, _ => false
  | n + 1, t => (HTable.subsets t).all (fun s => depthLE n s)

theorem getHandler_cons (b : Nat) (bs : List Nat) (t : HTable) :
    getHandler (b :: bs) t =
      match (HTable.directs t).getD b (Handler.direct Loader.unknown) with
      | Handler.direct h => Except.ok (h, bs)
      | Handler.subset i =>
        match (HTable.subsets t).get? i with
        | some sub => getHandler bs sub
        | none => Except.error DErr.badSubset := rfl

/-- In a tree of depth at most n, a successful lookup consumes between 1 and n
whole bytes and returns the untouched remainder of the slice. -/
theorem getHandler_le_depth (n : Nat) :
    ∀ (t : HTable) (bytes : List Nat) (l : Loader) (rest : List Nat),
      depthLE n t = true → getHandler bytes t = Except.ok (l, rest) →
      ∃ d, 1 ≤ d ∧ d ≤ n ∧ rest = List.drop d bytes := by
  induction n with
  | zero => intro t bytes l rest hd; simp [depthLE] at hd
  | succ n ih =>
    intro t bytes l rest hd hg
    cases bytes with
    | nil => simp [getHandler] at hg
    | cons b bs =>
      rw [getHandler_cons] at hg
      split at hg
      · simp only [Except.ok.injEq, Prod.mk.injEq] at hg
        exact ⟨1, le_refl 1, by omega, by rw [← hg.2]; rfl⟩
      · split at hg
        · rename_i i heq sub hsub
          have hmem : sub ∈ HTable.subsets t := List.get?_mem hsub
          have hdsub : depthLE n sub = true := by
            simp only [depthLE, List.all_eq_true] at hd
            exact hd sub hmem
          obtain ⟨d, h1, h2, h3⟩ := ih sub bs l rest hdsub hg
          exact ⟨d + 1, by omega, by omega, by simpa using h3⟩
        · exact Except.noConfusion hg

/-- C5: whenever get_handler succeeds on the code-page-0 table it consumes
exactly d whole bytes for some 1 ≤ d ≤ 3 (the table is 3 levels deep), with
d = 1 exactly for first bytes whose root slot is Direct, and d ≥ 2 for first
bytes routed through a Subset; no partial bit reads occur (the remainder is a
plain drop of whole bytes). -/
theorem C5_dispatch_depth (bytes : List Nat) (l : Loader) (rest : List Nat)
    (h : getHandler bytes table0 = Except.ok (l, rest)) :
    ∃ d, 1 ≤ d ∧ d ≤ 3 ∧ rest = List.drop d bytes ∧
      (∀ b bs, bytes = b :: bs →
        ((∃ lo, rootSlot b = Handler.direct lo) → d = 1) ∧
        (∀ i, rootSlot b = Handler.subset i → 2 ≤ d)) := by
  cases bytes with
  | nil => simp [getHandler] at h
  | cons b bs =>
    rw [getHandler_cons] at h
    split at h
    · rename_i lo heq
      simp only [Except.ok.injEq, Prod.mk.injEq] at h
      refine ⟨1, le_refl 1, by omega, by rw [← h.2]; rfl, ?_⟩
      intro b2 bs2 heq2
      injection heq2 with hb hbs
      subst hb
      constructor
      · intro _; rfl
      · intro i hi
        unfold rootSlot at hi
        exact Handler.noConfusion (heq.symm.trans hi)
    · rename_i i heq
      split at h
      · rename_i sub hsub
        have hmem : sub ∈ HTable.subsets table0 := List.get?_mem hsub
        have hd3 : depthLE 3 table0 = true := by decide
        have hall : ((HTable.subsets table0).all (fun s => depthLE 2 s)) = true := hd3
        have hdsub : depthLE 2 sub = true := by
          rw [List.all_eq_true] at hall
          exact hall sub hmem
        obtain ⟨d, h1, h2, h3⟩ := getHandler_le_depth 2 sub bs l rest hdsub h
        refine ⟨d + 1, by omega, by omega, by simpa using h3, ?_⟩
        intro b2 bs2 heq2
        injection heq2 with hb hbs
        subst hb
        constructor
        · intro hdir
          obtain ⟨lo, hlo⟩ := hdir
          unfold rootSlot at hlo
          exact Handler.noConfusion (heq.symm.trans hlo)
        · intro _ _; omega
      · exact Except.noConfusion h

/-- C5 witness at the slice [0x00]: NOP resolves at the root in one byte. -/
theorem C5_dispatch_depth_witness :
    ∃ d, 1 ≤ d ∧ d ≤ 3 ∧ ([] : List Nat) = List.drop d [0x00] ∧
      (∀ b bs, ([0x00] : List Nat) = b :: bs →
        ((∃ lo, rootSlot b = Handler.direct lo) → d = 1) ∧
        (∀ i, rootSlot b = Handler.subset i → 2 ≤ d)) :=
  C5_dispatch_depth [0x00] (Loader.p ("nop")) [] rfl

/-! ### C6: the quiet mirror behind 0xB7 -/

/-- The child node behind root byte 0xB7 (quiet arithmetic/comparison). -/
def b7sub : HTable := (subAt table0 0xB7).getD newH

/-- The signaling 0xB6 child at the root. -/
def b6sigT : HTable := (subAt table0 0xB6).getD newH

/-- The quiet 0xB6 child inside the 0xB7 subset. -/
def b6quietT : HTable := (subAt b7sub 0xB6).getD newH

/-- A slot is assigned when it is not the load_unknown sentinel. -/
def assigned (h : Handler) : Bool :=
  match h with
  | Handler.direct Loader.unknown => false
  | _ => true

def isSubsetSlot (h : Handler) : Bool :=
  match h with
  | Handler.subset _ => true
  | _ => false

/-- Quiet-mirror relation between a root slot and the corresponding 0xB7
subset slot: a Signaling loader is mirrored by the Quiet loader of the same
operation, and unassigned slots are mirrored by unassigned slots. -/
def quietTwinOK (root quiet : Handler) : Bool :=
  match root, quiet with
  | Handler.direct (Loader.v n Variant.signaling), Handler.direct (Loader.v m Variant.quiet) => n == m
  | Handler.direct Loader.unknown, Handler.direct Loader.unknown => true
  | _, _ => false

def rootQuietTwin (b : Nat) : Bool := quietTwinOK (rootSlot b) (slotIn b7sub b)

def b6Twin (b : Nat) : Bool := quietTwinOK (slotIn b6sigT b) (slotIn b6quietT b)

/-- The direct-slot extent of the mirror: 0xA0–0xB5 and 0xB8–0xC3
(0xB6 is the mirrored nested sub-table, handled separately). -/
def mirrorRange : List Nat := List.range' 0xA0 22 ++ List.range' 0xB8 12

/-- C6 counterexample: byte 0xC4 lies inside the claimed signaling-comparison
extent 0xB8–0xC7 and is assigned at the root (ISNAN), yet the 0xB7 subset
leaves 0xC4 unassigned — so the claimed "assigned exactly when assigned at
the root within the extents" equivalence is false at b = 0xC4. -/
theorem C6_quiet_mirror_counterexample :
    ((0xB8 ≤ 0xC4 ∧ 0xC4 ≤ 0xC7) ∧
      rootSlot 0xC4 = Handler.direct (Loader.p ("isnan")) ∧
      slotIn b7sub 0xC4 = Handler.direct Loader.unknown) ∧
    ¬ (∀ b, ((0xA0 ≤ b ∧ b ≤ 0xB6) ∨ (0xB8 ≤ b ∧ b ≤ 0xC7)) →
        assigned (slotIn b7sub b) = assigned (rootSlot b)) := by
  constructor
  · exact ⟨by omega, by decide, by decide⟩
  · intro hall
    have h := hall 0xC4 (Or.inr (by omega))
    have e1 : assigned (slotIn b7sub 0xC4) = false := by decide
    have e2 : assigned (rootSlot 0xC4) = true := by decide
    rw [e1, e2] at h
    exact Bool.noConfusion h

/-- C6 amended: the 0xB7 subset mirrors the signaling layout on the extents
0xA0–0xB5 and 0xB8–0xC3: a byte there is assigned in the subset exactly when
it is assigned at the root, and each assigned slot carries the Quiet variant
of the operation whose Signaling variant sits at that root byte; the nested
0xB6 sub-table is mirrored slot-for-slot the same way. The mirror excludes
0xC4 (ISNAN), 0xC5 (CHKNAN) and the 0xC7 slice-comparison subset, which are
assigned at the root inside 0xB8–0xC7 but absent from the 0xB7 subset
(0xC6 is unassigned on both sides). -/
theorem C6_quiet_mirror :
    mirrorRange.all rootQuietTwin = true ∧
    (List.range 256).all b6Twin = true ∧
    isSubsetSlot (rootSlot 0xB6) = true ∧
    isSubsetSlot (slotIn b7sub 0xB6) = true := by
  refine ⟨by decide, by decide, by decide, by decide⟩

/-! ### Assembler parser (src/tvm_linker/src/parser.rs)

Input files are modelled as lists of lines (without the trailing newline;
parse_code appends it back when accumulating section bodies, as read_line
keeps it). All inputs of interest are ASCII, so Rust byte positions and
lengths coincide with the character positions used here. The anchored
regular patterns of the source are deterministic (each quantified class is
disjoint from what follows it), so they are embedded as straight-line
matchers. -/

def wsCh (c : Char) : Bool :=
  c == ' ' || c == '\t' || c == '\n' || c == '\r' || c.toNat == 11 || c.toNat == 12

def wordCh (c : Char) : Bool := c.isAlpha || c.isDigit || c == '_'

def alphaCh (c : Char) : Bool := c.isAlpha

def digitCh (c : Char) : Bool := c.isDigit

def sizeCh (c : Char) : Bool := wordCh c || c == '.'

/-- Consume one-or-more whitespace, greedily ([\t\s]+). -/
def ws1 : List Char → Option (List Char)
  | c :: r => if wsCh c then some (r.dropWhile wsCh) else Option.none
  | [] => Option.none

/-- Capture a nonempty greedy run of characters in a class. -/
def word1 (p : Char → Bool) (l : List Char) : Option (String × List Char) :=
  let cap := l.takeWhile p
  if cap.isEmpty then Option.none else some (String.mk cap, l.drop cap.length)

/-- Match a literal prefix. -/
def lit : List Char → List Char → Option (List Char)
  | [], l => some l
  | c :: cr, x :: xr => if c == x then lit cr xr else Option.none
  | _ :: _, [] => Option.none

/-- PATTERN_TYPE: ws* ".type" ws+ (word) "," ws* "@" (alpha). -/
def matchType (s : String) : Option (String × String) := do
  let l := s.data.dropWhile wsCh
  let l ← lit (".type").data l
  let l ← ws1 l
  let (name, l) ← word1 wordCh l
  match l with
  | ',' :: l =>
    let l := l.dropWhile wsCh
    (match l with
     | '@' :: l => (word1 alphaCh l).map (fun p => (name, p.1))
     | _ => Option.none)
  | _ => Option.none

/-- PATTERN_SIZE: ws* ".size" ws+ (word) "," ws* ([.word]). -/
def matchSize (s : String) : Option (String × String) := do
  let l := s.data.dropWhile wsCh
  let l ← lit (".size").data l
  let l ← ws1 l
  let (name, l) ← word1 wordCh l
  match l with
  | ',' :: l =>
    let l := l.dropWhile wsCh
    (word1 sizeCh l).map (fun p => (name, p.1))
  | _ => Option.none

/-- PATTERN_GLOBL: ws* ".globl" ws+ (word). -/
def matchGlobl (s : String) : Option String := do
  let l := s.data.dropWhile wsCh
  let l ← lit (".globl").data l
  let l ← ws1 l
  let (name, _) ← word1 wordCh l
  pure name

/-- PATTERN_DATA: ws* ".data". -/
def matchData (s : String) : Bool := (lit (".data").data (s.data.dropWhile wsCh)).isSome

/-- PATTERN_SELECTOR: ws* ".selector". -/
def matchSelector (s : String) : Bool := (lit (".selector").data (s.data.dropWhile wsCh)).isSome

/-- PATTERN_INTERNAL: ws* ".internal" ws+ (":" word), captured with the colon. -/
def matchInternal (s : String) : Option String := do
  let l := s.data.dropWhile wsCh
  let l ← lit (".internal").data l
  let l ← ws1 l
  match l with
  | ':' :: l => (word1 wordCh l).map (fun p => String.mk (':' :: p.1.data))
  | _ => Option.none

/-- PATTERN_ALIAS: ws* ".internal-alias" one literal space (":" word) ","
ws+ (-? digits); the captures are the colon-name and the signed digit run. -/
def matchAlias (s : String) : Option (String × String) := do
  let l := s.data.dropWhile wsCh
  let l ← lit (".internal-alias ").data l
  match l with
  | ':' :: l => do
    let (name, l) ← word1 wordCh l
    match l with
    | ',' :: l => do
      let l ← ws1 l
      let (sgn, l) := match l with
        | '-' :: r => (true, r)
        | _ => (false, l)
      let (digits, _) ← word1 digitCh l
      pure (String.mk (':' :: name.data),
        if sgn then String.mk ('-' :: digits.data) else digits)
    | _ => Option.none
  | _ => Option.none

/-- PATTERN_LABEL: (word) ":" at column zero. -/
def matchLabel (s : String) : Bool :=
  match word1 wordCh s.data with
  | some (_, ':' :: _) => true
  | _ => false

/-- PATTERN_PARAM: ws+ "." (word); returns the capture and its start index
(the index just past the dot), as used by update_data. -/
def matchParam (s : String) : Option (String × Nat) :=
  let w := s.data.takeWhile wsCh
  if w.isEmpty then Option.none
  else
    match s.data.drop w.length with
    | '.' :: l => (word1 wordCh l).map (fun p => (p.1, w.length + 1))
    | _ => Option.none

/-! #### Engine state -/

inductive ObjType where
  | none
  | function (id : Nat) (body : String)
  | data (values : List (Int × Nat))
deriving DecidableEq

/-- ObjectType::from(&str). -/
def ObjType.ofStr (stype : String) : ObjType :=
  if stype = "function" then ObjType.function 0 ("")
  else if stype = "object" then ObjType.data []
  else ObjType.none

structure Obj where
  name : String
  size : Nat
  align : Nat
  dtype : ObjType
deriving DecidableEq

def Obj.new (name : String) (stype : String) : Obj :=
  { name := name, size := 0, align := 0, dtype := ObjType.ofStr stype }

def Obj.dflt : Obj := Obj.new ("") ("")

/-- HashMap lookup (first matching key). -/
def aget {κ α : Type} [BEq κ] (m : List (κ × α)) (k : κ) : Option α :=
  (m.find? (fun p => p.1 == k)).map (fun p => p.2)

/-- HashMap insert: replace in place or append. -/
def aset {κ α : Type} [BEq κ] : List (κ × α) → κ → α → List (κ × α)
  | [], k, v => [(k, v)]
  | p :: r, k, v => if p.1 == k then (k, v) :: r else p :: aset r k v

/-- HashMap entry(k).or_insert(d). -/
def aentry {κ α : Type} [BEq κ] (m : List (κ × α)) (k : κ) (d : α) : List (κ × α) :=
  if (aget m k).isSome then m else m ++ [(k, d)]

/-- In-place modification of an existing entry. -/
def amod {κ α : Type} [BEq κ] (m : List (κ × α)) (k : κ) (f : α → α) : List (κ × α) :=
  m.map (fun p => if p.1 == k then (p.1, f p.2) else p)

structure Engine where
  xrefs : List (String × Nat)
  intrefs : List (String × Int)
  aliases : List (String × Int)
  globals : List (String × Obj)
  internals : List (Int × String)
  signed : List (Nat × Bool)
  entry_point : String
deriving DecidableEq

def Engine.new : Engine :=
  { xrefs := [], intrefs := [], aliases := [], globals := [],
    internals := [], signed := [], entry_point := "" }

def GLOBL : String := ".globl"

def INTERNAL : String := ".internal"

def DATA : String := ".data"

def SELECTOR : String := ".selector"

def FUNC_SUFFIX_AUTH : String := "_authorized"

/-- str::find: index of the first occurrence of a pattern. -/
def findSub (pat : List Char) : List Char → Option Nat
  | [] => if pat.isEmpty then some 0 else Option.none
  | c :: r =>
    if pat.isPrefixOf (c :: r) then some 0
    else (findSub pat r).map (fun i => i + 1)

/-- The signed-function check of ParseEngine::update: str::find locates the
FIRST occurrence of "_authorized", and the flag is true only when that first
occurrence ends exactly at the end of the name. -/
def rustSignedFlag (func : String) : Bool :=
  match findSub (FUNC_SUFFIX_AUTH).data func.data with
  | some index => index + (FUNC_SUFFIX_AUTH).data.length == func.data.length
  | Option.none => false

/-- str::trim_end. -/
def rtrim (s : String) : String := String.mk (((s.data.reverse).dropWhile wsCh).reverse)

def parseDigits (l : List Char) : Nat := l.foldl (fun a c => a * 10 + (c.toNat - 48)) 0

/-- usize::from_str_radix(s, 10): digits only, failing on overflow (64-bit). -/
def parseUsize (s : String) : Option Nat :=
  if s.data.isEmpty || !(s.data.all digitCh) then Option.none
  else
    let v := parseDigits s.data
    if v < 18446744073709551616 then some v else Option.none

/-- i32::from_str_radix on the -?digits shape produced by the alias pattern;
fails outside the i32 range. -/
def parseI32 (s : String) : Option Int :=
  match s.data with
  | '-' :: ds =>
    let v : Int := -(parseDigits ds : Nat)
    if -2147483648 ≤ v then some v else Option.none
  | ds =>
    let v := parseDigits ds
    if v < 2147483648 then some (v : Int) else Option.none

/-- IntegerData::from_str_radix(value, 10): optional sign, decimal digits. -/
def parseIntDec (s : String) : Option Int :=
  match s.data with
  | '-' :: ds =>
    if ds.isEmpty || !(ds.all digitCh) then Option.none
    else some (-(parseDigits ds : Nat))
  | ds =>
    if ds.isEmpty || !(ds.all digitCh) then Option.none
    else some ((parseDigits ds : Nat) : Int)

def bodyLinesAux : List Char → List Char → List String
  | [], acc => [String.mk acc.reverse]
  | c :: r, acc =>
    if c == '\n' then String.mk acc.reverse :: bodyLinesAux r [] else bodyLinesAux r (c :: acc)

/-- str::lines over an accumulated body (trailing empty piece is harmless:
no pattern matches the empty line). -/
def bodyLines (s : String) : List String := bodyLinesAux s.data []

/-- ParseEngine::update_data, line by line over the accumulated body. The
width match compares the captured directive word (without its leading dot)
against the dotted literals ".byte" / ".long" / ".short" / ".quad", so every
recognized parameter line takes the Unsupported-parameter branch. -/
def updateData : List String → Nat → List (Int × Nat) → Except String (Nat × List (Int × Nat))
  | [], size, vals =>
    if size > 0 then
      Except.error ("global object has invalid .size parameter: bigger than defined values")
    else Except.ok (size, vals)
  | p :: rest, size, vals =>
    match matchParam p with
    | Option.none => updateData rest size vals
    | some (word, start) =>
      let vlen? : Option Nat :=
        if word = ".byte" then some 1
        else if word = ".long" then some 4
        else if word = ".short" then some 2
        else if word = ".quad" then some 8
        else Option.none
      match vlen? with
      | Option.none => Except.error ("Unsupported parameter " ++ word)
      | some vlen =>
        if size < vlen then
          Except.error ("global object has invalid .size parameter: too small)")
        else
          let value := rtrim (String.mk (((p.data.drop start).dropWhile (fun c => c == ',')).dropWhile wsCh))
          match parseIntDec value with
          | Option.none => Except.error ("value is invalid number")
          | some v => updateData rest (size - vlen) (vals ++ [(v, vlen)])

/-- ParseEngine::update: flush one accumulated (section, name, body). -/
def update (e : Engine) (sec func body : String) (fp : Bool) : Except String Engine :=
  if sec = SELECTOR then
    if e.entry_point = "" then Except.ok { e with entry_point := rtrim body }
    else Except.error ("Another selector found")
  else if sec = GLOBL then
    let obj := (aget e.globals func).getD Obj.dflt
    match obj.dtype with
    | ObjType.function _ _ =>
      let signed := rustSignedFlag func
      let func_id := calc_func_id (utf8Str func)
      let obj2 := { obj with dtype := ObjType.function func_id (rtrim body) }
      let prev := aget e.xrefs func
      if fp && prev.isSome then
        Except.error ("global function with id = " ++ toString func_id ++ " already exist")
      else
        Except.ok { e with
          globals := aset e.globals func obj2,
          signed := aset e.signed func_id signed,
          xrefs := aset e.xrefs func func_id }
    | ObjType.data vals =>
      match updateData (bodyLines body) obj.size vals with
      | Except.ok (sz, vs) =>
        Except.ok { e with
          globals := aset e.globals func { obj with size := sz, dtype := ObjType.data vs } }
      | Except.error m => Except.error m
    | ObjType.none =>
      Except.error ("The type of global object " ++ func ++ " is unknown. Use: .type " ++ func ++ ", xxx")
  else if sec = INTERNAL then
    match aget e.aliases func with
    | Option.none => Except.error ("id for " ++ func ++ " not found")
    | some fid =>
      let prev := aget e.internals fid
      if fp && prev.isSome then
        Except.error ("internal function with id = " ++ toString fid ++ " already exist")
      else
        Except.ok { e with
          internals := aset e.internals fid (rtrim body),
          intrefs := aset e.intrefs func fid }
  else Except.ok e

/-! #### Pass-2 label substitution (ParseEngine::replace_labels) -/

/-- Length of a reference match of $:?word$ anchored at the head, if any. -/
def refAt (l : List Char) : Option Nat :=
  match l with
  | '$' :: r =>
    let (r1, ext) : List Char × Nat := match r with
      | ':' :: rr => (rr, 1)
      | _ => (r, 0)
    let w := r1.takeWhile wordCh
    if w.isEmpty then Option.none
    else match r1.drop w.length with
      | '$' :: _ => some (1 + ext + w.length + 1)
      | _ => Option.none
  | _ => Option.none

/-- Regex::find for the label pattern: leftmost match as (start, length). -/
def findMatch : List Char → Option (Nat × Nat)
  | [] => Option.none
  | c :: r =>
    match refAt (c :: r) with
    | some n => some (0, n)
    | Option.none => (findMatch r).map (fun p => (p.1 + 1, p.2))

/-- Resolve a reference: ':'-prefixed names through intrefs, plain names
through xrefs, missing names to the literal placeholder. -/
def lookupRef (e : Engine) (ptr : String) : String :=
  match ptr.data with
  | ':' :: _ =>
    (match aget e.intrefs ptr with
     | some id => toString id
     | Option.none => "???")
  | _ =>
    (match aget e.xrefs ptr with
     | some id => toString id
     | Option.none => "???")

/-- The loop of replace_labels: emit the text before the first match and the
resolved id, then continue on re.split's parts[1] — the text strictly between
the first and the second match (or all remaining text when there is no second
match). The fuel is the line length, which the loop strictly decreases. -/
def replaceLabelsGo (e : Engine) : Nat → List Char → List Char
  | 0, l => l
  | Nat.succ fuel, l =>
    match findMatch l with
    | Option.none => l
    | some (s, n) =>
      let pre := l.take s
      let ptr := (l.drop (s + 1)).take (n - 2)
      let idn := lookupRef e (String.mk ptr)
      let rest := l.drop (s + n)
      let part1 := match findMatch rest with
        | Option.none => rest
        | some (s2, _) => rest.take s2
      pre ++ idn.data ++ replaceLabelsGo e fuel part1

def replaceLabels (e : Engine) (line : String) : String :=
  String.mk (replaceLabelsGo e (line.data.length + 1) line.data)

/-! #### The line loop of parse_code -/

inductive LineKind where
  | ktype (name tyname : String)
  | ksize (name sizestr : String)
  | kglobl (name : String)
  | kdata
  | kselector
  | kinternal (name : String)
  | kalias (name numstr : String)
  | klabel
  | kdotted
  | kbody
deriving DecidableEq

/-- The ordered, mutually exclusive line classification of parse_code
(type, size, globl, data, selector, internal, internal-alias, label,
dotted parameter, plain body — first match wins). -/
def classify (l : String) : LineKind :=
  match matchType l with
  | some (n, t) => LineKind.ktype n t
  | Option.none =>
  match matchSize l with
  | some (n, sz) => LineKind.ksize n sz
  | Option.none =>
  match matchGlobl l with
  | some n => LineKind.kglobl n
  | Option.none =>
  if matchData l then LineKind.kdata
  else if matchSelector l then LineKind.kselector
  else
  match matchInternal l with
  | some n => LineKind.kinternal n
  | Option.none =>
  match matchAlias l with
  | some (n, v) => LineKind.kalias n v
  | Option.none =>
  if matchLabel l then LineKind.klabel
  else if (matchParam l).isSome then LineKind.kdotted
  else LineKind.kbody

structure PCtx where
  section_name : String
  obj_name : String
  obj_body : String
deriving DecidableEq

/-- One iteration of the read_line loop of parse_code. -/
def stepLine (fp : Bool) (e : Engine) (c : PCtx) (l : String) : Except String (Engine × PCtx) :=
  match classify l with
  | LineKind.ktype name tyname =>
    let g := aentry e.globals name (Obj.new name tyname)
    Except.ok ({ e with globals := amod g name (fun o => { o with dtype := ObjType.ofStr tyname }) }, c)
  | LineKind.ksize name szstr =>
    let g := aentry e.globals name (Obj.new name (""))
    Except.ok ({ e with globals := amod g name (fun o => { o with size := (parseUsize szstr).getD 0 }) }, c)
  | LineKind.kglobl name =>
    match update e c.section_name c.obj_name c.obj_body fp with
    | Except.error m => Except.error m
    | Except.ok e2 =>
      Except.ok ({ e2 with globals := aentry e2.globals name (Obj.new name ("")) },
        { section_name := GLOBL, obj_name := name, obj_body := "" })
  | LineKind.kdata =>
    (update e c.section_name c.obj_name c.obj_body fp).map
      (fun e2 => (e2, { section_name := DATA, obj_name := "", obj_body := "" }))
  | LineKind.kselector =>
    (update e c.section_name c.obj_name c.obj_body fp).map
      (fun e2 => (e2, { section_name := if fp then "" else SELECTOR, obj_name := "", obj_body := "" }))
  | LineKind.kinternal name =>
    (update e c.section_name c.obj_name c.obj_body fp).map
      (fun e2 => (e2, { section_name := INTERNAL, obj_name := name, obj_body := "" }))
  | LineKind.kalias name numstr =>
    (match parseI32 numstr with
     | some v => Except.ok ({ e with aliases := aset e.aliases name v }, c)
     | Option.none => Except.error ("line: " ++ l ++ ": failed to parse id"))
  | LineKind.klabel => Except.ok (e, c)
  | LineKind.kdotted => Except.ok (e, { c with obj_body := c.obj_body ++ l ++ "\n" })
  | LineKind.kbody =>
    let l2 := if fp then l else replaceLabels e l
    Except.ok (e, { c with obj_body := c.obj_body ++ l2 ++ "\n" })

def runLines (fp : Bool) : Engine → PCtx → List String → Except String (Engine × PCtx)
  | e, c, [] => Except.ok (e, c)
  | e, c, l :: ls =>
    match stepLine fp e c l with
    | Except.ok (e2, c2) => runLines fp e2 c2 ls
    | Except.error m => Except.error m

/-- ParseEngine::parse_code over one input in one pass, with the implicit
end-of-file flush of the last open section. -/
def parseCode (fp : Bool) (e : Engine) (lines : List String) : Except String Engine :=
  match runLines fp e { section_name := "", obj_name := "", obj_body := "" } lines with
  | Except.ok (e2, c) => update e2 c.section_name c.obj_name c.obj_body fp
  | Except.error m => Except.error m

/-- The library loop of ParseEngine::parse: each library is read twice
(pass 1, seek to zero, pass 2). -/
def parseLibs (e : Engine) : List (List String) → Except String Engine
  | [] => Except.ok e
  | lib :: r =>
    match parseCode true e lib with
    | Except.error m => Except.error m
    | Except.ok e1 =>
      match parseCode false e1 lib with
      | Except.error m => Except.error m
      | Except.ok e2 => parseLibs e2 r

/-- ParseEngine::parse: libraries first (two passes each), then the primary
source (two passes), then the missing-selector check. -/
def parseProgram (source : List String) (libs : List (List String)) : Except String Engine :=
  match parseLibs Engine.new libs with
  | Except.error m => Except.error m
  | Except.ok e =>
    match parseCode true e source with
    | Except.error m => Except.error m
    | Except.ok e1 =>
      match parseCode false e1 source with
      | Except.error m => Except.error m
      | Except.ok e2 =>
        if e2.entry_point = "" then Except.error ("Selector not found") else Except.ok e2

/-! #### Result projections used by the theorems -/

def entryOf (r : Except String Engine) : Option String :=
  match r with
  | Except.ok e => some e.entry_point
  | Except.error _ => Option.none

def errOf (r : Except String Engine) : Option String :=
  match r with
  | Except.error m => some m
  | Except.ok _ => Option.none

def okBool (r : Except String Engine) : Bool :=
  match r with
  | Except.ok _ => true
  | Except.error _ => false

def signedOf (r : Except String Engine) (id : Nat) : Option Bool :=
  match r with
  | Except.ok e => aget e.signed id
  | Except.error _ => Option.none

def globSizeOf (r : Except String Engine) (n : String) : Option Nat :=
  match r with
  | Except.ok e => (aget e.globals n).map (fun o => o.size)
  | Except.error _ => Option.none

/-! #### The selector is the only writer of entry_point -/

theorem update_entry (e : Engine) (sec f b : String) (fp : Bool) (e2 : Engine)
    (hs : sec ≠ SELECTOR) (h : update e sec f b fp = Except.ok e2) :
    e2.entry_point = e.entry_point := by
  unfold update at h
  rw [if_neg hs] at h
  by_cases hg : sec = GLOBL
  · rw [if_pos hg] at h
    simp only [] at h
    split at h
    · split at h
      · exact Except.noConfusion h
      · simp only [Except.ok.injEq] at h
        rw [← h]
    · split at h
      · simp only [Except.ok.injEq] at h
        rw [← h]
      · exact Except.noConfusion h
    · exact Except.noConfusion h
  · rw [if_neg hg] at h
    by_cases hi : sec = INTERNAL
    · rw [if_pos hi] at h
      split at h
      · exact Except.noConfusion h
      · simp only [] at h
        split at h
        · exact Except.noConfusion h
        · simp only [Except.ok.injEq] at h
          rw [← h]
    · rw [if_neg hi] at h
      simp only [Except.ok.injEq] at h
      rw [← h]

theorem classify_selector (l : String) (hm : matchSelector l = false) :
    classify l ≠ LineKind.kselector := by
  intro h
  unfold classify at h
  repeat' split at h
  all_goals simp_all

theorem stepLine_entry (fp : Bool) (e : Engine) (c : PCtx) (l : String) (e2 : Engine) (c2 : PCtx)
    (hm : matchSelector l = false) (hsec : c.section_name ≠ SELECTOR)
    (h : stepLine fp e c l = Except.ok (e2, c2)) :
    e2.entry_point = e.entry_point ∧ c2.section_name ≠ SELECTOR := by
  unfold stepLine at h
  cases hk : classify l with
  | kselector => exact absurd hk (classify_selector l hm)
  | ktype n t =>
    rw [hk] at h
    simp only [Except.ok.injEq, Prod.mk.injEq] at h
    obtain ⟨he, hc⟩ := h
    rw [← he, ← hc]
    exact ⟨rfl, hsec⟩
  | ksize n sz =>
    rw [hk] at h
    simp only [Except.ok.injEq, Prod.mk.injEq] at h
    obtain ⟨he, hc⟩ := h
    rw [← he, ← hc]
    exact ⟨rfl, hsec⟩
  | kglobl n =>
    rw [hk] at h
    simp only [] at h
    cases hu : update e c.section_name c.obj_name c.obj_body fp with
    | error m =>
      rw [hu] at h
      simp only [] at h
      exact Except.noConfusion h
    | ok eu =>
      rw [hu] at h
      simp only [Except.ok.injEq, Prod.mk.injEq] at h
      obtain ⟨he, hc⟩ := h
      rw [← he, ← hc]
      refine ⟨update_entry _ _ _ _ _ eu hsec hu, ?_⟩
      intro hx
      exact (by decide : GLOBL ≠ SELECTOR) hx
  | kdata =>
    rw [hk] at h
    simp only [] at h
    cases hu : update e c.section_name c.obj_name c.obj_body fp with
    | error m =>
      rw [hu] at h
      simp only [Except.map] at h
      exact Except.noConfusion h
    | ok eu =>
      rw [hu] at h
      simp only [Except.map, Except.ok.injEq, Prod.mk.injEq] at h
      obtain ⟨he, hc⟩ := h
      rw [← he, ← hc]
      refine ⟨update_entry _ _ _ _ _ eu hsec hu, ?_⟩
      intro hx
      exact (by decide : DATA ≠ SELECTOR) hx
  | kinternal n =>
    rw [hk] at h
    simp only [] at h
    cases hu : update e c.section_name c.obj_name c.obj_body fp with
    | error m =>
      rw [hu] at h
      simp only [Except.map] at h
      exact Except.noConfusion h
    | ok eu =>
      rw [hu] at h
      simp only [Except.map, Except.ok.injEq, Prod.mk.injEq] at h
      obtain ⟨he, hc⟩ := h
      rw [← he, ← hc]
      refine ⟨update_entry _ _ _ _ _ eu hsec hu, ?_⟩
      intro hx
      exact (by decide : INTERNAL ≠ SELECTOR) hx
  | kalias n v =>
    rw [hk] at h
    simp only [] at h
    split at h
    · simp only [Except.ok.injEq, Prod.mk.injEq] at h
      obtain ⟨he, hc⟩ := h
      rw [← he, ← hc]
      exact ⟨rfl, hsec⟩
    · exact Except.noConfusion h
  | klabel =>
    rw [hk] at h
    simp only [Except.ok.injEq, Prod.mk.injEq] at h
    obtain ⟨he, hc⟩ := h
    rw [← he, ← hc]
    exact ⟨rfl, hsec⟩
  | kdotted =>
    rw [hk] at h
    simp only [Except.ok.injEq, Prod.mk.injEq] at h
    obtain ⟨he, hc⟩ := h
    rw [← he, ← hc]
    exact ⟨rfl, hsec⟩
  | kbody =>
    rw [hk] at h
    simp only [Except.ok.injEq, Prod.mk.injEq] at h
    obtain ⟨he, hc⟩ := h
    rw [← he, ← hc]
    exact ⟨rfl, hsec⟩

theorem runLines_entry (fp : Bool) :
    ∀ (lines : List String) (e : Engine) (c : PCtx) (e2 : Engine) (c2 : PCtx),
      (∀ l ∈ lines, matchSelector l = false) → c.section_name ≠ SELECTOR →
      runLines fp e c lines = Except.ok (e2, c2) →
      e2.entry_point = e.entry_point ∧ c2.section_name ≠ SELECTOR := by
  intro lines
  induction lines with
  | nil =>
    intro e c e2 c2 _ hsec h
    injection h with h2
    injection h2 with he hc
    rw [← he, ← hc]
    exact ⟨rfl, hsec⟩
  | cons l ls ih =>
    intro e c e2 c2 hall hsec h
    unfold runLines at h
    cases hs : stepLine fp e c l with
    | error m => rw [hs] at h; exact Except.noConfusion h
    | ok p =>
      rw [hs] at h
      obtain ⟨he, hc⟩ := stepLine_entry fp e c l p.1 p.2 (hall l (by simp)) hsec hs
      have hr := ih p.1 p.2 e2 c2 (fun x hx => hall x (by simp [hx])) hc h
      exact ⟨hr.1.trans he, hr.2⟩

theorem parseCode_entry (fp : Bool) (e : Engine) (lines : List String) (e2 : Engine)
    (hall : ∀ l ∈ lines, matchSelector l = false)
    (h : parseCode fp e lines = Except.ok e2) :
    e2.entry_point = e.entry_point := by
  unfold parseCode at h
  cases hr : runLines fp e { section_name := "", obj_name := "", obj_body := "" } lines with
  | error m => rw [hr] at h; simp only [] at h; exact Except.noConfusion h
  | ok p =>
    rw [hr] at h
    simp only [] at h
    obtain ⟨he, hc⟩ := runLines_entry fp lines e _ p.1 p.2 hall (by decide) hr
    exact (update_entry _ _ _ _ _ _ hc h).trans he

theorem parseLibs_entry :
    ∀ (libs : List (List String)) (e : Engine) (e2 : Engine),
      (∀ lib ∈ libs, ∀ l ∈ lib, matchSelector l = false) →
      parseLibs e libs = Except.ok e2 → e2.entry_point = e.entry_point := by
  intro libs
  induction libs with
  | nil =>
    intro e e2 _ h
    injection h with h2
    rw [← h2]
  | cons lib r ih =>
    intro e e2 hall h
    unfold parseLibs at h
    cases h1 : parseCode true e lib with
    | error m => rw [h1] at h; simp only [] at h; exact Except.noConfusion h
    | ok ea =>
      rw [h1] at h
      simp only [] at h
      cases h2 : parseCode false ea lib with
      | error m => rw [h2] at h; simp only [] at h; exact Except.noConfusion h
      | ok eb =>
        rw [h2] at h
        simp only [] at h
        have ha := parseCode_entry true e lib ea (hall lib (by simp)) h1
        have hb := parseCode_entry false ea lib eb (hall lib (by simp)) h2
        have hr := ih eb e2 (fun x hx => hall x (by simp [hx])) h
        rw [hr, hb, ha]

/-- A successful parse requires a selector-matching line in some input. -/
theorem parse_ok_needs_selector (src : List String) (libs : List (List String))
    (h : okBool (parseProgram src libs) = true) :
    ∃ l, (l ∈ src ∨ ∃ lib ∈ libs, l ∈ lib) ∧ matchSelector l = true := by
  by_contra hno
  push_neg at hno
  have hsrc : ∀ l ∈ src, matchSelector l = false := by
    intro l hl
    have := hno l (Or.inl hl)
    simpa using this
  have hlibs : ∀ lib ∈ libs, ∀ l ∈ lib, matchSelector l = false := by
    intro lib hlib l hl
    have := hno l (Or.inr ⟨lib, hlib, hl⟩)
    simpa using this
  unfold parseProgram at h
  cases h0 : parseLibs Engine.new libs with
  | error m => rw [h0] at h; simp [okBool] at h
  | ok e0 =>
    rw [h0] at h
    simp only [] at h
    cases h1 : parseCode true e0 src with
    | error m => rw [h1] at h; simp [okBool] at h
    | ok e1 =>
      rw [h1] at h
      simp only [] at h
      cases h2 : parseCode false e1 src with
      | error m => rw [h2] at h; simp [okBool] at h
      | ok e2 =>
        rw [h2] at h
        simp only [] at h
        have hent : e2.entry_point = "" := by
          have ha := parseLibs_entry libs Engine.new e0 hlibs h0
          have hb := parseCode_entry true e0 src e1 hsrc h1
          have hc := parseCode_entry false e1 src e2 hsrc h2
          rw [hc, hb, ha]
          rfl
        rw [if_pos hent] at h
        simp [okBool] at h

/-! ### Claim theorems on the parser -/

/-- A state in which the global foo_authorized_authorized is a declared
function, as a .globl / .type pair leaves it before its section is flushed. -/
def e3auth : Engine :=
  { Engine.new with
    globals := [("foo_authorized_authorized",
      { name := "foo_authorized_authorized", size := 0, align := 0,
        dtype := ObjType.function 0 ("") })] }

/-- C3: the signed flag is computed from the FIRST occurrence of _authorized
(str::find), not from an ends-with test. On foo_authorized it is true and on
foo_authorized_x false, as the claim says, but on foo_authorized_authorized —
which does end with _authorized — the first occurrence is at index 3, 3 + 11
is not the length 25, and the code records signed = false, contradicting the
claim; the update flush stores that false in the signed table under the
function's computed ID. -/
theorem C3_signed_suffix_bug :
    rustSignedFlag ("foo_authorized") = true ∧
    rustSignedFlag ("foo_authorized_x") = false ∧
    List.isSuffixOf (FUNC_SUFFIX_AUTH).data ("foo_authorized_authorized").data = true ∧
    rustSignedFlag ("foo_authorized_authorized") = false ∧
    signedOf (update e3auth (".globl") ("foo_authorized_authorized") ("") true)
      (calc_func_id (utf8Str ("foo_authorized_authorized"))) = some false := by
  refine ⟨rfl, rfl, rfl, rfl, by decide⟩

/-- A state with the cross-reference IDs used by the substitution claim. -/
def e4refs : Engine :=
  { Engine.new with xrefs := [("x", 1), ("y", 2), ("foo", 0x12345678)] }

/-- C4: single references substitute as the claim says — known foo becomes its
decimal ID and unknown bar becomes ??? — but on a line with two references the
loop continues on re.split parts[1], the text strictly between the first and
second match, so the second reference and everything after it are dropped:
"A $x$ B $y$ C" yields "A 1 B ", not the claimed "A 1 B 2 C". -/
theorem C4_label_substitution_bug :
    replaceLabels e4refs ("CALL $foo$") = "CALL 305419896" ∧
    replaceLabels e4refs ("CALL $bar$") = "CALL ???" ∧
    replaceLabels e4refs ("A $x$ B $y$ C") = "A 1 B " ∧
    replaceLabels e4refs ("A $x$ B $y$ C") ≠ "A 1 B 2 C" := by
  refine ⟨rfl, rfl, rfl, by decide⟩

def src7two : List String := [".selector", ".selector", "X"]

/-- C7 counterexample: a source with two .selector sections (the first with an
empty body, which leaves entry_point empty and so is silently skipped) parses
successfully — parse does not require exactly one selector section. -/
theorem C7_selector_counterexample :
    (src7two.filter (fun l => matchSelector l)).length = 2 ∧
    entryOf (parseProgram src7two []) = some ("X") := by
  refine ⟨rfl, rfl⟩

/-- C7 amended: entry_point is written only by selector sections, so a
successful parse requires a selector line in some input; an otherwise
well-formed input with no selector fails with "Selector not found"; and when
two selector sections with nonempty bodies are flushed (for example one in a
library and one in the source), the second flush fails with "Another selector
found". Only the claim's "exactly one" is weakened: selector sections whose
body is empty are skipped rather than counted. -/
theorem C7_selector_discipline :
    (∀ (src : List String) (libs : List (List String)),
      okBool (parseProgram src libs) = true →
      ∃ l, (l ∈ src ∨ ∃ lib ∈ libs, l ∈ lib) ∧ matchSelector l = true) ∧
    errOf (parseProgram [("NOP")] []) = some ("Selector not found") ∧
    errOf (parseProgram [(".selector"), ("B")] [[(".selector"), ("A")]]) =
      some ("Another selector found") := by
  refine ⟨parse_ok_needs_selector, rfl, rfl⟩

/-- C7 witness: instantiating the universal part on the two-line source
".selector" / "POP", whose parse succeeds. -/
theorem C7_selector_discipline_witness :
    ∃ l, (l ∈ [(".selector"), ("POP")] ∨ ∃ lib ∈ ([] : List (List String)), l ∈ lib) ∧
      matchSelector l = true :=
  C7_selector_discipline.1 [(".selector"), ("POP")] [] rfl

/-- C8: assembling a data-typed global faults on every declared value,
regardless of whether .size matches the summed widths: the width match in
update_data compares the captured directive word without its dot ("long")
against the dotted literals (".long"), so the body of the claim's success
case (.size 8 with .long X, .long Y) and both failure cases (.size 7, .size 9)
all fault with "Unsupported parameter long" — the claimed size accounting is
unreachable. -/
theorem C8_data_size_bug :
    updateData (bodyLines ("\t.long 1\n\t.long 2\n")) 8 [] =
      Except.error ("Unsupported parameter long") ∧
    updateData (bodyLines ("\t.long 1\n\t.long 2\n")) 7 [] =
      Except.error ("Unsupported parameter long") ∧
    updateData (bodyLines ("\t.long 1\n\t.long 2\n")) 9 [] =
      Except.error ("Unsupported parameter long") ∧
    matchParam ("\t.long 1") = some (("long"), 2) := by
  refine ⟨rfl, rfl, rfl, rfl⟩

def src9size : List String := [".size x, abc", ".selector", "POP"]

def src9aliasBig : List String := [".internal-alias :x, 99999999999", ".selector", "POP"]

def src9aliasBad : List String := [".internal-alias :x, abc", ".selector", "POP"]

/-- C9 counterexample: the line ".size x, abc" carries a .size directive whose
operand abc is not a well-formed decimal integer (the size pattern's operand
class admits letters), yet parse succeeds — usize parsing failure is absorbed
by unwrap_or(0) instead of faulting. -/
theorem C9_malformed_numeric_counterexample :
    matchSize (".size x, abc") = some (("x"), ("abc")) ∧
    parseUsize ("abc") = Option.none ∧
    entryOf (parseProgram src9size []) = some ("POP") := by
  refine ⟨rfl, rfl, rfl⟩

/-- C9 amended: a .size operand that does not parse as a decimal usize is
recorded as size 0 without fault; an .internal-alias line whose operand is
non-numeric does not match the alias pattern at all and is treated as a plain
body line, also without fault; the only numeric fault is an .internal-alias
whose well-formed decimal operand overflows i32, which fails with the
failed-to-parse-id error. -/
theorem C9_malformed_numeric :
    globSizeOf (parseProgram src9size []) ("x") = some 0 ∧
    entryOf (parseProgram src9size []) = some ("POP") ∧
    errOf (parseProgram src9aliasBig []) =
      some ("line: .internal-alias :x, 99999999999: failed to parse id") ∧
    entryOf (parseProgram src9aliasBad []) = some ("POP") := by
  refine ⟨rfl, rfl, rfl, rfl⟩

def src10 : List String :=
  [".selector", "X", ".globl d", ".type d, @object", ".size d, 8", "\t.long 1", "\t.long 2"]

/-- C10: the claim describes data values surviving into build_data with
consecutive keys 0..n-1 after a successful parse, but no source declaring a
DataValue can parse successfully: the first pass already faults on the first
value line with "Unsupported parameter long" (the update_data width-match bug
of C8), so after any successful parse every data-typed global's value list is
empty and the described keying is vacuous. -/
theorem C10_data_segment_bug :
    parseProgram src10 [] = Except.error ("Unsupported parameter long") := by
  rfl

end TvmLinker
